import Mathlib

/-!
Shallow embedding of the ic-1inch repository's core logic, together with
theorems settling the frozen claims about it.

Embedded modules (translated from the Rust source):
* `SHA256`           — the SHA-256 digest used by `verify_hashlock`
                       (`sha2` crate, as called from `src/backend/src/escrows.rs`)
* `EscrowManager`    — `src/escrow_manager/src/timelock.rs`
* `Backend.Escrows`  — `src/backend/src/escrows.rs` (HTLC escrow state machine)
* `Backend.Orders`   — `src/backend/src/limit_orders.rs` + `src/backend/src/memory.rs`
* `Orderbook`        — `src/orderbook/src/types.rs` + `src/orderbook/src/lib.rs`

Machine integers (`u64`, `u32`) are modelled as `Nat`; subtraction sites are
only reached behind the same guards as in the source, so truncated `Nat`
subtraction agrees with the Rust value at every reachable call site, and
theorems about arithmetic that could overflow a `u64` carry explicit range
hypotheses.  The canister's ambient time (`ic_cdk::api::time()`) is passed as
an explicit `now` parameter, and the thread-local stores of `memory.rs` are
passed as explicit state values.
-/

set_option maxRecDepth 100000

/-! ## SHA-256 (FIPS 180-4), over lists of bytes (`Nat` values < 256) -/

namespace SHA256

/-- Word modulus: 2^32. -/
def M32 : Nat := 4294967296

/-- Addition modulo 2^32. -/
def add32 (a b : Nat) : Nat := (a + b) % M32

/-- Right-rotation of a 32-bit word. -/
def rotr (n x : Nat) : Nat := ((x >>> n) ||| (x <<< (32 - n))) % M32

/-- Big sigma-0. -/
def bsig0 (x : Nat) : Nat := (rotr 2 x) ^^^ (rotr 13 x) ^^^ (rotr 22 x)

/-- Big sigma-1. -/
def bsig1 (x : Nat) : Nat := (rotr 6 x) ^^^ (rotr 11 x) ^^^ (rotr 25 x)

/-- Small sigma-0. -/
def ssig0 (x : Nat) : Nat := (rotr 7 x) ^^^ (rotr 18 x) ^^^ (x >>> 3)

/-- Small sigma-1. -/
def ssig1 (x : Nat) : Nat := (rotr 17 x) ^^^ (rotr 19 x) ^^^ (x >>> 10)

/-- Choice function. -/
def chF (x y z : Nat) : Nat := (x &&& y) ^^^ ((x ^^^ 4294967295) &&& z)

/-- Majority function. -/
def majF (x y z : Nat) : Nat := (x &&& y) ^^^ (x &&& z) ^^^ (y &&& z)

/-- The 64 round constants (FIPS 180-4 section 4.2.2, in decimal). -/
def K : List Nat :=
  [1116352408, 1899447441, 3049323471, 3921009573, 961987163,
   1508970993, 2453635748, 2870763221, 3624381080, 310598401,
   607225278, 1426881987, 1925078388, 2162078206, 2614888103,
   3248222580, 3835390401, 4022224774, 264347078, 604807628,
   770255983, 1249150122, 1555081692, 1996064986, 2554220882,
   2821834349, 2952996808, 3210313671, 3336571891, 3584528711,
   113926993, 338241895, 666307205, 773529912, 1294757372,
   1396182291, 1695183700, 1986661051, 2177026350, 2456956037,
   2730485921, 2820302411, 3259730800, 3345764771, 3516065817,
   3600352804, 4094571909, 275423344, 430227734, 506948616,
   659060556, 883997877, 958139571, 1322822218, 1537002063,
   1747873779, 1955562222, 2024104815, 2227730452, 2361852424,
   2428436474, 2756734187, 3204031479, 3329325298]

/-- The initial hash value (FIPS 180-4 section 5.3.3, in decimal). -/
def H0 : List Nat :=
  [1779033703, 3144134277, 1013904242, 2773480762, 1359893119,
   2600822924, 528734635, 1541459225]

/-- Big-endian byte serialization of a value into `n` bytes. -/
def toBytesBE : Nat → Nat → List Nat
  | 0, _ => []
  | n + 1, v => toBytesBE n (v / 256) ++ [v % 256]

/-- Merkle–Damgård padding: append 0x80, zeros, and the 64-bit message bit length. -/
def padMsg (msg : List Nat) : List Nat :=
  msg ++ 0x80 :: (List.replicate ((119 - msg.length % 64) % 64) 0 ++ toBytesBE 8 (8 * msg.length))

/-- Group bytes into big-endian 32-bit words. -/
def bytesToWords : List Nat → List Nat
  | b0 :: b1 :: b2 :: b3 :: rest => (((b0 * 256 + b1) * 256 + b2) * 256 + b3) :: bytesToWords rest
  | _ => []

/-- Extend a 16-word block by `n` further schedule words. -/
def extendSchedule : Nat → List Nat → List Nat
  | 0, acc => acc
  | n + 1, acc =>
    let i := acc.length
    let w := add32 (add32 (ssig1 (acc.getD (i - 2) 0)) (acc.getD (i - 7) 0))
                   (add32 (ssig0 (acc.getD (i - 15) 0)) (acc.getD (i - 16) 0))
    extendSchedule n (acc ++ [w])

/-- One compression round: state is the 8-word list `[a,b,c,d,e,f,g,h]`. -/
def roundStep (st : List Nat) (kw : Nat × Nat) : List Nat :=
  let a := st.getD 0 0
  let b := st.getD 1 0
  let c := st.getD 2 0
  let d := st.getD 3 0
  let e := st.getD 4 0
  let f := st.getD 5 0
  let g := st.getD 6 0
  let h := st.getD 7 0
  let t1 := add32 (add32 (add32 h (bsig1 e)) (chF e f g)) (add32 kw.1 kw.2)
  let t2 := add32 (bsig0 a) (majF a b c)
  [add32 t1 t2, a, b, c, add32 d t1, e, f, g]

/-- Compress one 16-word block into the running hash. -/
def compressBlock (h : List Nat) (block : List Nat) : List Nat :=
  let w := extendSchedule 48 block
  let st := (K.zip w).foldl roundStep h
  List.zipWith add32 h st

/-- Accumulator-based helper for `chunk16` (structural recursion so that the
kernel can evaluate it). -/
def chunk16Aux : List Nat → List Nat → List (List Nat)
  | [], acc => if acc.isEmpty then [] else [acc.reverse]
  | w :: ws, acc =>
    if acc.length == 15 then (w :: acc).reverse :: chunk16Aux ws []
    else chunk16Aux ws (w :: acc)

/-- Split a word list into 16-word blocks. -/
def chunk16 (l : List Nat) : List (List Nat) := chunk16Aux l []

/-- SHA-256 digest of a byte string, as 32 bytes. -/
def sha256 (msg : List Nat) : List Nat :=
  ((chunk16 (bytesToWords (padMsg msg))).foldl compressBlock H0).foldr
    (fun wd acc => toBytesBE 4 wd ++ acc) []

/-- Sanity check of the embedding against the FIPS 180-4 test vector for the
empty message. -/
theorem sha256_nil_vector :
    sha256 [] =
      [0xe3, 0xb0, 0xc4, 0x42, 0x98, 0xfc, 0x1c, 0x14, 0x9a, 0xfb, 0xf4, 0xc8,
       0x99, 0x6f, 0xb9, 0x24, 0x27, 0xae, 0x41, 0xe4, 0x64, 0x9b, 0x93, 0x4c,
       0xa4, 0x95, 0x99, 0x1b, 0x78, 0x52, 0xb8, 0x55] := by decide

/-- Sanity check of the embedding against the FIPS 180-4 test vector for the
message "abc" (bytes 0x61 0x62 0x63). -/
theorem sha256_abc_vector :
    sha256 [0x61, 0x62, 0x63] =
      [0xba, 0x78, 0x16, 0xbf, 0x8f, 0x01, 0xcf, 0xea, 0x41, 0x41, 0x40, 0xde,
       0x5d, 0xae, 0x22, 0x23, 0xb0, 0x03, 0x61, 0xa3, 0x96, 0x17, 0x7a, 0x9c,
       0xb4, 0x10, 0xff, 0x61, 0xf2, 0x00, 0x15, 0xad] := by decide

end SHA256

/-! ## EscrowManager timelock coordinator — `src/escrow_manager/src/timelock.rs` -/

namespace EscrowManager

/-- Error type of the escrow_manager canister (`src/escrow_manager/src/types.rs`). -/
inductive EscrowError
  | EscrowNotFound | InsufficientBalance | Unauthorized | InvalidState
  | TimelockNotExpired | TimelockExpired | InvalidReceipt | TransferFailed
  | OrderNotFound | SystemError
  | ChainFusionRequestFailed | ThresholdECDSAUnavailable
  | EVMAddressDerivationFailed | EVMEscrowCreationFailed
  | NetworkPartitionDetected | ChainHealthDegraded | InsufficientConfirmations
  | InvalidHashlock | InvalidOrderHash | InvalidAddress | InvalidToken | InvalidAmount
  | TimelockTooShort | EscrowAlreadyExists | InvalidTimelockCoordination
  | SecretVerificationFailed
  | CrossChainCoordinationFailed | StateTransitionInvalid | EventLoggingFailed
  | SlippageProtectionViolation | ExecutionAmountMismatch
  | InvalidPartialFill | PartialFillValidationFailed
  deriving DecidableEq, Repr

/-- Buffer constant: total buffer in minutes (`constants::BUFFER_MINUTES`). -/
def BUFFER_MINUTES : Nat := 3

/-- Finality buffer in nanoseconds (`constants::FINALITY_BUFFER_NS`). -/
def FINALITY_BUFFER_NS : Nat := 2 * 60 * 1000000000

/-- Coordination buffer in nanoseconds (`constants::COORDINATION_BUFFER_NS`). -/
def COORDINATION_BUFFER_NS : Nat := 1 * 60 * 1000000000

/-- Total buffer in nanoseconds (`constants::TOTAL_BUFFER_NS`). -/
def TOTAL_BUFFER_NS : Nat := FINALITY_BUFFER_NS + COORDINATION_BUFFER_NS

/-- Minimum timelock duration in nanoseconds (`constants::MIN_TIMELOCK_DURATION_NS`). -/
def MIN_TIMELOCK_DURATION_NS : Nat := 10 * 60 * 1000000000

/-- Additional safety buffer in nanoseconds (`constants::SAFETY_BUFFER_NS`). -/
def SAFETY_BUFFER_NS : Nat := 5 * 60 * 1000000000

/-- Complete timelock configuration (`TimelockConfig` in types.rs). -/
structure TimelockConfig where
  deployed_at : Nat
  src_withdrawal : Nat
  src_public_withdrawal : Nat
  src_cancellation : Nat
  src_public_cancellation : Nat
  dst_withdrawal : Nat
  dst_public_withdrawal : Nat
  dst_cancellation : Nat
  conservative_buffer : Nat
  deriving DecidableEq, Repr

/-- Result record of the conservative timelock calculation (`ConservativeTimelocks`). -/
structure ConservativeTimelocks where
  icp_timelock : Nat
  evm_timelock : Nat
  buffer_minutes : Nat
  config : TimelockConfig
  deriving DecidableEq, Repr

/-- Embedding of `create_conservative_timelock_config` from timelock.rs. -/
def create_conservative_timelock_config (current_time : Nat) : TimelockConfig :=
  { deployed_at := current_time
    src_withdrawal := 3600
    src_public_withdrawal := 7200
    src_cancellation := 10800
    src_public_cancellation := 14400
    dst_withdrawal := 1800
    dst_public_withdrawal := 3600
    dst_cancellation := 5400
    conservative_buffer := BUFFER_MINUTES * 60 }

/-- Embedding of `calculate_conservative_timelocks` from timelock.rs.  The subtraction
`base_timelock - TOTAL_BUFFER_NS` is only reached when
`base_timelock > current_time + TOTAL_BUFFER_NS + SAFETY_BUFFER_NS`, so the
truncated `Nat` subtraction agrees with the `u64` value. -/
def calculate_conservative_timelocks (base_timelock current_time : Nat) :
    Except EscrowError ConservativeTimelocks :=
  let min_timelock := current_time + TOTAL_BUFFER_NS + SAFETY_BUFFER_NS
  if base_timelock ≤ min_timelock then
    .error .TimelockTooShort
  else
    .ok { icp_timelock := base_timelock
          evm_timelock := base_timelock - TOTAL_BUFFER_NS
          buffer_minutes := BUFFER_MINUTES
          config := create_conservative_timelock_config current_time }

/-- Embedding of `validate_cross_chain_coordination` from timelock.rs. -/
def validate_cross_chain_coordination (icp_timelock evm_timelock : Nat) :
    Except EscrowError Unit :=
  if icp_timelock ≤ evm_timelock then
    .error .InvalidTimelockCoordination
  else if icp_timelock - evm_timelock < TOTAL_BUFFER_NS then
    .error .InvalidTimelockCoordination
  else
    .ok ()

/-- Embedding of `is_timelock_expired` from timelock.rs. -/
def is_timelock_expired (timelock current_time : Nat) : Bool :=
  current_time ≥ timelock

end EscrowManager

/-! ## Keyed in-memory stores (the `thread_local!` HashMaps of `memory.rs`) -/

namespace Store

/-- Lookup in an association-list model of a `HashMap`.  Keys are unique by
construction (`insert` replaces), so first-match lookup is map lookup. -/
def lookup {κ α : Type} [DecidableEq κ] : List (κ × α) → κ → Option α
  | [], _ => none
  | (k', v) :: rest, k => if k' = k then some v else lookup rest k

/-- Embedding of `HashMap::insert`: replace the binding for the key if present, else add it. -/
def insert {κ α : Type} [DecidableEq κ] : List (κ × α) → κ → α → List (κ × α)
  | [], k, v => [(k, v)]
  | (k', v') :: rest, k, v =>
    if k' = k then (k, v) :: rest else (k', v') :: insert rest k v

/-- Embedding of `HashSet::insert`: add an element if absent. -/
def setInsert (s : List Nat) (x : Nat) : List Nat :=
  if s.contains x then s else x :: s

end Store

/-! ## Backend escrow state machine — `src/backend/src/escrows.rs` -/

namespace Backend

/-- Principals are modelled as `Nat`; two distinguished principals that the
backend compares against are given fixed distinct values. -/
def managementCanister : Nat := 0

/-- The anonymous principal. -/
def anonymousPrincipal : Nat := 1

/-- Embedding of `EscrowState` from `src/backend/src/types.rs`. -/
inductive EscrowState
  | Created | Funded | Claimed | Refunded | Expired
  deriving DecidableEq, Repr

/-- Embedding of `EscrowError` from `src/backend/src/types.rs`. -/
inductive EscrowError
  | InvalidAmount | InsufficientBalance | EscrowNotFound | TimelockExpired
  | Unauthorized | InvalidTimelock | InvalidHashlock | TransferFailed
  | TimelockNotExpired | InvalidState | InvalidEscrowType
  deriving DecidableEq, Repr

/-- Embedding of `TimelockStatus` from `src/backend/src/escrows.rs`. -/
inductive TimelockStatus
  | Active | Expired
  deriving DecidableEq, Repr

/-- Embedding of `Escrow` from `src/backend/src/types.rs`.  `hashlock` is a byte string. -/
structure Escrow where
  id : String
  hashlock : List Nat
  timelock : Nat
  token_canister : Nat
  amount : Nat
  maker : Nat
  state : EscrowState
  created_at : Nat
  updated_at : Nat
  deriving DecidableEq, Repr

/-- Embedding of `CreateEscrowParams` from `src/backend/src/types.rs`. -/
structure CreateEscrowParams where
  maker : Nat
  hashlock : List Nat
  token_canister : Nat
  amount : Nat
  timelock : Nat
  deriving DecidableEq, Repr

/-- The escrow table (`ESCROWS` in `memory.rs`), passed explicitly. -/
abbrev EscrowStore := List (String × Escrow)

/-- Embedding of `verify_hashlock` from escrows.rs: SHA-256 of the preimage must equal the
stored hashlock. -/
def verify_hashlock (preimage expected_hashlock : List Nat) : Bool :=
  SHA256.sha256 preimage == expected_hashlock

/-- Embedding of `get_timelock_status` from escrows.rs, with the ambient time explicit. -/
def get_timelock_status (timelock now : Nat) : TimelockStatus :=
  if now < timelock then .Active else .Expired

/-- Embedding of `validate_timelock` from escrows.rs. -/
def validate_timelock (timelock now : Nat) : Except EscrowError Unit :=
  if timelock ≤ now then .error .InvalidTimelock else .ok ()

/-- Embedding of `is_authorized_resolver` from escrows.rs: the MVP authorizes every
resolver. -/
def is_authorized_resolver (_resolver : Nat) : Bool := true

/-- Embedding of `validate_create_escrow_authorization` from escrows.rs. -/
def validate_create_escrow_authorization (caller : Nat) : Except EscrowError Unit :=
  if is_authorized_resolver caller then .ok () else .error .Unauthorized

/-- Embedding of `create_escrow` from escrows.rs.  The `u64` comparison `amount <= 0` is
`amount = 0`.  The escrow id is `format!("escrow_{}", time())`. -/
def create_escrow (st : EscrowStore) (caller : Nat) (params : CreateEscrowParams)
    (now : Nat) : Except EscrowError String × EscrowStore :=
  match validate_create_escrow_authorization caller with
  | .error e => (.error e, st)
  | .ok () =>
    if params.amount = 0 then (.error .InvalidAmount, st)
    else match validate_timelock params.timelock now with
    | .error e => (.error e, st)
    | .ok () =>
      let escrow_id := "escrow_" ++ toString now
      let escrow : Escrow :=
        { id := escrow_id
          hashlock := params.hashlock
          timelock := params.timelock
          token_canister := params.token_canister
          amount := params.amount
          maker := params.maker
          state := .Created
          created_at := now
          updated_at := now }
      (.ok escrow_id, Store.insert st escrow_id escrow)

/-- Embedding of `deposit_tokens` from escrows.rs (Created → Funded). -/
def deposit_tokens (st : EscrowStore) (caller : Nat) (escrow_id : String)
    (amount : Nat) (now : Nat) : Except EscrowError Unit × EscrowStore :=
  match Store.lookup st escrow_id with
  | none => (.error .EscrowNotFound, st)
  | some escrow =>
    if escrow.state ≠ .Created then (.error .InvalidState, st)
    else if amount ≠ escrow.amount then (.error .InvalidAmount, st)
    else if ¬ is_authorized_resolver caller then (.error .Unauthorized, st)
    else (.ok (), Store.insert st escrow_id { escrow with state := .Funded, updated_at := now })

/-- Embedding of `claim_escrow` from escrows.rs (Funded → Claimed). -/
def claim_escrow (st : EscrowStore) (escrow_id : String) (preimage : List Nat)
    (now : Nat) : Except EscrowError Unit × EscrowStore :=
  match Store.lookup st escrow_id with
  | none => (.error .EscrowNotFound, st)
  | some escrow =>
    if escrow.state ≠ .Funded then (.error .InvalidState, st)
    else if ¬ verify_hashlock preimage escrow.hashlock then (.error .InvalidHashlock, st)
    else if get_timelock_status escrow.timelock now = .Expired then (.error .TimelockExpired, st)
    else (.ok (), Store.insert st escrow_id { escrow with state := .Claimed, updated_at := now })

/-- Embedding of `refund_escrow` from escrows.rs (Funded → Refunded). -/
def refund_escrow (st : EscrowStore) (escrow_id : String) (now : Nat) :
    Except EscrowError Unit × EscrowStore :=
  match Store.lookup st escrow_id with
  | none => (.error .EscrowNotFound, st)
  | some escrow =>
    if escrow.state ≠ .Funded then (.error .InvalidState, st)
    else if get_timelock_status escrow.timelock now ≠ .Expired then (.error .TimelockNotExpired, st)
    else (.ok (), Store.insert st escrow_id { escrow with state := .Refunded, updated_at := now })

end Backend

/-! ## Backend limit-order engine — `src/backend/src/limit_orders.rs`, `memory.rs` -/

namespace Backend

/-- Embedding of `OrderState` from `src/backend/src/types.rs`. -/
inductive OrderState
  | Active | Filled | Cancelled | Expired
  deriving DecidableEq, Repr

/-- Embedding of `OrderError` from `src/backend/src/types.rs`. -/
inductive OrderError
  | InvalidAmount | InvalidExpiration | InvalidAssetPair | InvalidReceiver
  | InvalidOrderId | InvalidPrincipal
  | OrderNotFound | OrderAlreadyFilled | OrderCancelled | OrderExpired | OrderInactive
  | Unauthorized | InsufficientBalance | AnonymousCaller | NotOrderMaker
  | TokenCallFailed (msg : String) | TransferFailed (msg : String)
  | BalanceCheckFailed (msg : String) | TokenNotSupported (msg : String)
  | SystemError (msg : String) | MemoryError (msg : String) | ConcurrencyError (msg : String)
  | TooManyOrders | OrderCreationRateLimited | SystemOverloaded
  deriving DecidableEq, Repr

/-- Embedding of `Order` from `src/backend/src/types.rs`.  The `metadata` field is always
`None` in the MVP and is read by none of the embedded operations, so it is
omitted. -/
structure Order where
  id : Nat
  maker : Nat
  receiver : Nat
  maker_asset : Nat
  taker_asset : Nat
  making_amount : Nat
  taking_amount : Nat
  expiration : Nat
  created_at : Nat
  allowed_taker : Option Nat
  deriving DecidableEq, Repr

/-- The limit-order portion of the thread-local state in `memory.rs`:
`ORDERS`, `FILLED_ORDERS`, `CANCELLED_ORDERS`, `ORDER_COUNTER`.
(`SYSTEM_STATS` only counts events and is read by none of the claims.) -/
structure OrdersState where
  orders : List (Nat × Order)
  filled : List Nat
  cancelled : List Nat
  order_counter : Nat
  deriving DecidableEq, Repr

/-- Embedding of `Order::get_state` from types.rs. -/
def Order.get_state (o : Order) (filled cancelled : List Nat) (now : Nat) : OrderState :=
  if o.expiration ≤ now then .Expired
  else if filled.contains o.id then .Filled
  else if cancelled.contains o.id then .Cancelled
  else .Active

/-- Embedding of `Order.is_active` from types.rs. -/
def Order.is_active (o : Order) (filled cancelled : List Nat) (now : Nat) : Bool :=
  o.get_state filled cancelled now == .Active

/-- Embedding of `is_order_active` from memory.rs. -/
def is_order_active (st : OrdersState) (order_id now : Nat) : Bool :=
  match Store.lookup st.orders order_id with
  | some o => o.is_active st.filled st.cancelled now
  | none => false

/-- Embedding of `mark_order_filled` from memory.rs. -/
def mark_order_filled (st : OrdersState) (order_id : Nat) : OrdersState :=
  { st with filled := Store.setInsert st.filled order_id }

/-- Embedding of `mark_order_cancelled` from memory.rs. -/
def mark_order_cancelled (st : OrdersState) (order_id : Nat) : OrdersState :=
  { st with cancelled := Store.setInsert st.cancelled order_id }

/-- Outcome of one `icrc1_transfer` inter-canister call, as the source
distinguishes them (`TokenInterface::transfer`). -/
inductive TransferOutcome
  | success (block_index : Nat)
  | transferError (msg : String)
  | callFailed (msg : String)
  deriving DecidableEq, Repr

/-- Environment supplying the results of the asynchronous ledger calls.
`balance_result c a` is the `icrc1_balance_of` reply of token canister `c`
for account `a` (`Except.error` = the inter-canister call failed);
`transfer_outcome c to amt` is the `icrc1_transfer` reply of canister `c`
for a transfer of `amt` to `to` (the `from` argument of
`TokenInterface::transfer` is unused by the source, which always transfers
from the backend canister's own account). -/
structure LedgerEnv where
  balance_result : Nat → Nat → Except String Nat
  transfer_outcome : Nat → Nat → Nat → TransferOutcome

/-- Embedding of `TokenInterface::balance_of` from limit_orders.rs. -/
def balance_of (env : LedgerEnv) (canister_id account : Nat) : Except OrderError Nat :=
  match env.balance_result canister_id account with
  | .ok balance => .ok balance
  | .error e => .error (.TokenCallFailed ("Balance check failed: " ++ e))

/-- Embedding of `TokenInterface::transfer` from limit_orders.rs. -/
def token_transfer (env : LedgerEnv) (canister_id toAcct amount : Nat) : Except OrderError Nat :=
  match env.transfer_outcome canister_id toAcct amount with
  | .success block_index => .ok block_index
  | .transferError e => .error (.TransferFailed ("Transfer failed: " ++ e))
  | .callFailed e => .error (.TokenCallFailed ("Transfer call failed: " ++ e))

/-- Embedding of `check_taker_balance` from limit_orders.rs. -/
def check_taker_balance (env : LedgerEnv) (taker_asset taker taking_amount : Nat) :
    Except OrderError Unit :=
  match balance_of env taker_asset taker with
  | .error e => .error e
  | .ok balance =>
    if balance < taking_amount then .error .InsufficientBalance else .ok ()

/-- Debug rendering of an `OrderError`, mirroring Rust's derived `Debug`
(used inside the `format!` of the critical rollback-failure message). -/
def orderErrorDebug : OrderError → String
  | .InvalidAmount => "InvalidAmount"
  | .InvalidExpiration => "InvalidExpiration"
  | .InvalidAssetPair => "InvalidAssetPair"
  | .InvalidReceiver => "InvalidReceiver"
  | .InvalidOrderId => "InvalidOrderId"
  | .InvalidPrincipal => "InvalidPrincipal"
  | .OrderNotFound => "OrderNotFound"
  | .OrderAlreadyFilled => "OrderAlreadyFilled"
  | .OrderCancelled => "OrderCancelled"
  | .OrderExpired => "OrderExpired"
  | .OrderInactive => "OrderInactive"
  | .Unauthorized => "Unauthorized"
  | .InsufficientBalance => "InsufficientBalance"
  | .AnonymousCaller => "AnonymousCaller"
  | .NotOrderMaker => "NotOrderMaker"
  | .TokenCallFailed m => "TokenCallFailed(\"" ++ m ++ "\")"
  | .TransferFailed m => "TransferFailed(\"" ++ m ++ "\")"
  | .BalanceCheckFailed m => "BalanceCheckFailed(\"" ++ m ++ "\")"
  | .TokenNotSupported m => "TokenNotSupported(\"" ++ m ++ "\")"
  | .SystemError m => "SystemError(\"" ++ m ++ "\")"
  | .MemoryError m => "MemoryError(\"" ++ m ++ "\")"
  | .ConcurrencyError m => "ConcurrencyError(\"" ++ m ++ "\")"
  | .TooManyOrders => "TooManyOrders"
  | .OrderCreationRateLimited => "OrderCreationRateLimited"
  | .SystemOverloaded => "SystemOverloaded"

/-- Embedding of `execute_order_transfers` from limit_orders.rs: best-effort two-leg
transfer with compensating rollback of the first leg. -/
def execute_order_transfers (env : LedgerEnv) (order : Order) (taker : Nat) :
    Except OrderError Unit :=
  if order.maker_asset = managementCanister ∨ order.taker_asset = managementCanister then
    .ok ()
  else
    match balance_of env order.taker_asset taker with
    | .error e => .error e
    | .ok taker_balance =>
      if taker_balance < order.taking_amount then .error .InsufficientBalance
      else match balance_of env order.maker_asset order.maker with
      | .error e => .error e
      | .ok maker_balance =>
        if maker_balance < order.making_amount then .error .InsufficientBalance
        else match token_transfer env order.taker_asset order.receiver order.taking_amount with
        | .error e => .error e
        | .ok taker_block_index =>
          match token_transfer env order.maker_asset taker order.making_amount with
          | .ok _ => .ok ()
          | .error e =>
            match token_transfer env order.taker_asset taker order.taking_amount with
            | .ok _ => .error e
            | .error rollback_error =>
              .error (.SystemError
                ("Transfer failed and rollback failed. Original: " ++ orderErrorDebug e ++
                 ", Rollback: " ++ orderErrorDebug rollback_error ++
                 ", TakerBlockIndex: " ++ toString taker_block_index))

/-- Phases 1–3 of `fill_order` (everything before the first `await`): order
retrieval, active-state check with specific error reporting, and the
exclusive-taker authorization check.  Returns the captured order. -/
def fill_order_check (st : OrdersState) (taker order_id now : Nat) :
    Except OrderError Order :=
  match Store.lookup st.orders order_id with
  | none => .error .OrderNotFound
  | some order =>
    if ¬ is_order_active st order_id now then
      if order.expiration ≤ now then .error .OrderExpired
      else if st.filled.contains order_id then .error .OrderAlreadyFilled
      else if st.cancelled.contains order_id then .error .OrderCancelled
      else .error .OrderAlreadyFilled
    else
      match order.allowed_taker with
      | some allowed => if taker ≠ allowed then .error .Unauthorized else .ok order
      | none => .ok order

/-- Phase 6 of `fill_order` (`update_order_filled_state`): the continuation
run when the last external call of the transfer sequence has returned
successfully.  It marks the order filled and reports success without
re-reading the filled/cancelled markers. -/
def fill_order_finalize (st : OrdersState) (order_id : Nat) :
    Except OrderError Unit × OrdersState :=
  (.ok (), mark_order_filled st order_id)

/-- Embedding of `fill_order` from limit_orders.rs, executed without interleaving: the
sequential composition of phases 1–3, the taker balance check (phase 4,
skipped for the management-canister test asset), the two-leg transfer
(phase 5) and the finalization (phase 6). -/
def fill_order (env : LedgerEnv) (st : OrdersState) (taker order_id now : Nat) :
    Except OrderError Unit × OrdersState :=
  match fill_order_check st taker order_id now with
  | .error e => (.error e, st)
  | .ok order =>
    match (if order.taker_asset ≠ managementCanister then
             check_taker_balance env order.taker_asset taker order.taking_amount
           else .ok ()) with
    | .error e => (.error e, st)
    | .ok () =>
      match execute_order_transfers env order taker with
      | .error e => (.error e, st)
      | .ok () => fill_order_finalize st order_id

/-- Embedding of `validate_cancel_order_authorization` from limit_orders.rs. -/
def validate_cancel_order_authorization (caller : Nat) (order : Order) :
    Except OrderError Unit :=
  if caller ≠ order.maker then .error .Unauthorized
  else if caller = anonymousPrincipal then .error .Unauthorized
  else .ok ()

/-- Embedding of `cancel_order` from limit_orders.rs (synchronous, no suspension point). -/
def cancel_order (st : OrdersState) (caller order_id now : Nat) :
    Except OrderError Unit × OrdersState :=
  match Store.lookup st.orders order_id with
  | none => (.error .OrderNotFound, st)
  | some order =>
    match validate_cancel_order_authorization caller order with
    | .error e => (.error e, st)
    | .ok () =>
      if ¬ is_order_active st order_id now then
        if order.expiration ≤ now then (.error .OrderExpired, st)
        else if st.filled.contains order_id then (.error .OrderAlreadyFilled, st)
        else if st.cancelled.contains order_id then (.error .OrderCancelled, st)
        else (.error .OrderAlreadyFilled, st)
      else (.ok (), mark_order_cancelled st order_id)

end Backend

/-! ## Orderbook fusion orders — `src/orderbook/src/types.rs`, `lib.rs` -/

namespace Orderbook

/-- Embedding of `FusionError` from `src/orderbook/src/types.rs`. -/
inductive FusionError
  | OrderNotFound | OrderNotPending | OrderExpired | OrderAlreadyAccepted
  | OrderNotCancellable
  | InvalidAmount | InvalidExpiration | InvalidSecretHash | InvalidSecret
  | InvalidEIP712Signature | InvalidSalt | InvalidMakerTraits | InvalidOrderHash
  | Unauthorized | InsufficientBalance | ResolverNotWhitelisted
  | SystemError | EscrowCreationFailed | EscrowCoordinationFailed | NotImplemented
  | InvalidStateTransition | TimelockNotExpired | FinalityLockActive
  | ChainIdMismatch | TokenAddressInvalid | CrossChainVerificationFailed
  | AuctionNotStarted | AuctionExpired | PriceNotProfitable | InvalidPriceCurve
  | PartialFillsNotSupported | InvalidFillAmount | InsufficientRemainingAmount
  | EscrowsNotReady | EscrowNotificationFailed
  deriving DecidableEq, Repr

/-- Embedding of `OrderStatus` from types.rs. -/
inductive OrderStatus
  | Pending | Accepted | Completed | Failed | Cancelled
  deriving DecidableEq, Repr

/-- Embedding of `FusionState` from types.rs. -/
inductive FusionState
  | AnnouncementPhase | DepositPhase | WithdrawalPhase | RecoveryPhase
  | Completed | Cancelled
  deriving DecidableEq, Repr

/-- Embedding of `PartialFill` from types.rs (`secret_index` is a `u32` in the source). -/
structure PartialFill where
  resolver_address : String
  fill_amount : Nat
  secret_index : Nat
  timestamp : Nat
  deriving DecidableEq, Repr

/-- Embedding of `PartialFillData` from types.rs. -/
structure PartialFillData where
  merkle_root : String
  parts_amount : Nat
  filled_amount : Nat
  remaining_amount : Nat
  fills : List PartialFill
  deriving DecidableEq, Repr

/-- Embedding of `PriceSegment` from types.rs. -/
structure PriceSegment where
  start_time : Nat
  end_time : Nat
  start_price : Nat
  end_price : Nat
  decrease_rate : Nat
  deriving DecidableEq, Repr

/-- Embedding of `PriceCurve` from types.rs. -/
structure PriceCurve where
  segments : List PriceSegment
  total_duration : Nat
  spot_price : Nat
  deriving DecidableEq, Repr

/-- The fields of `FusionOrder` (types.rs) read or written by the embedded
operations (`partially_fill_order`, the Dutch-auction price functions and the
partial-fill helpers).  The other three dozen fields — chain ids, addresses,
signatures, escrow references, legacy duplicates — are read by none of them
and are omitted. -/
structure FusionOrder where
  id : String
  making_amount : Nat
  taking_amount : Nat
  secret_hashes : List String
  status : OrderStatus
  fusion_state : FusionState
  expires_at : Nat
  completed_at : Option Nat
  auction_start_timestamp : Nat
  auction_start_rate : Nat
  minimum_return_amount : Nat
  price_curve : PriceCurve
  partial_fill_data : Option PartialFillData
  deriving DecidableEq, Repr

/-- Embedding of `PartialFillData::new` from types.rs. -/
def PartialFillData.new (parts_amount total_amount : Nat) (merkle_root : String) :
    PartialFillData :=
  { merkle_root := merkle_root
    parts_amount := parts_amount
    filled_amount := 0
    remaining_amount := total_amount
    fills := [] }

/-- Embedding of `PartialFillData::add_fill` from types.rs. -/
def PartialFillData.add_fill (d : PartialFillData) (fill : PartialFill) :
    Except FusionError PartialFillData :=
  if fill.fill_amount > d.remaining_amount then
    .error .InsufficientRemainingAmount
  else
    .ok { d with
          filled_amount := d.filled_amount + fill.fill_amount
          remaining_amount := d.remaining_amount - fill.fill_amount
          fills := d.fills ++ [fill] }

/-- Embedding of `PartialFillData::is_fully_filled` from types.rs. -/
def PartialFillData.is_fully_filled (d : PartialFillData) : Bool :=
  d.remaining_amount == 0

/-- Embedding of `FusionOrder::supports_partial_fills` from types.rs. -/
def FusionOrder.supports_partial_fills (o : FusionOrder) : Bool :=
  o.partial_fill_data.isSome

/-- Embedding of `FusionOrder::enable_partial_fills` from types.rs. -/
def FusionOrder.enable_partial_fills (o : FusionOrder) (parts_amount : Nat)
    (merkle_root : String) : FusionOrder :=
  { o with partial_fill_data := some (PartialFillData.new parts_amount o.making_amount merkle_root) }

/-- Embedding of `FusionOrder::add_partial_fill` from types.rs. -/
def FusionOrder.add_partial_fill (o : FusionOrder) (fill : PartialFill) :
    Except FusionError FusionOrder :=
  match o.partial_fill_data with
  | some pd =>
    match pd.add_fill fill with
    | .error e => .error e
    | .ok pd2 => .ok { o with partial_fill_data := some pd2 }
  | none => .error .PartialFillsNotSupported

/-- Embedding of `FusionOrder::is_fully_filled` from types.rs. -/
def FusionOrder.is_fully_filled (o : FusionOrder) : Bool :=
  match o.partial_fill_data with
  | some pd => pd.is_fully_filled
  | none => o.status == .Completed

/-- Embedding of `FusionOrder::get_remaining_amount` from types.rs. -/
def FusionOrder.get_remaining_amount (o : FusionOrder) : Nat :=
  match o.partial_fill_data with
  | some pd => pd.remaining_amount
  | none => if o.status == .Completed then 0 else o.making_amount

/-- The first segment whose window `[start_time, end_time)` contains the
elapsed time — the `for` loop of `PriceCurve::calculate_price`. -/
def findSegment : List PriceSegment → Nat → Option PriceSegment
  | [], _ => none
  | s :: rest, e =>
    if s.start_time ≤ e ∧ e < s.end_time then some s else findSegment rest e

/-- The linear interpolation performed inside the loop body of
`PriceCurve::calculate_price` for the matching segment. -/
def segmentPrice (s : PriceSegment) (elapsed_time : Nat) : Nat :=
  let segment_elapsed := elapsed_time - s.start_time
  let segment_duration := s.end_time - s.start_time
  if segment_duration = 0 then s.start_price
  else s.start_price - (s.start_price - s.end_price) * segment_elapsed / segment_duration

/-- Embedding of `PriceCurve::calculate_price` from types.rs. -/
def PriceCurve.calculate_price (c : PriceCurve) (elapsed_time : Nat) : Nat :=
  if c.total_duration ≤ elapsed_time then
    ((c.segments.getLast?).map PriceSegment.end_price).getD 0
  else
    match findSegment c.segments elapsed_time with
    | some s => segmentPrice s elapsed_time
    | none => ((c.segments.head?).map PriceSegment.start_price).getD 0

/-- Embedding of `PriceCurve::default_curve` from types.rs. -/
def PriceCurve.default_curve (spot_price duration : Nat) : PriceCurve :=
  { segments :=
      [{ start_time := 0
         end_time := duration / 3
         start_price := spot_price + (spot_price * 20) / 100
         end_price := spot_price
         decrease_rate := (spot_price * 20) / 100 / (duration / 3) },
       { start_time := duration / 3
         end_time := duration
         start_price := spot_price
         end_price := (spot_price * 95) / 100
         decrease_rate := (spot_price * 5) / 100 / (duration * 2 / 3) }]
    total_duration := duration
    spot_price := spot_price / 6 }

/-- Embedding of `FusionOrder::calculate_current_price` from types.rs, with the ambient
time explicit. -/
def FusionOrder.calculate_current_price (o : FusionOrder) (now : Nat) : Nat :=
  if now < o.auction_start_timestamp then o.auction_start_rate
  else
    let elapsed_time := now - o.auction_start_timestamp
    max (o.price_curve.calculate_price elapsed_time) o.minimum_return_amount

/-- Embedding of `FusionOrder::is_profitable_for_resolver` from types.rs. -/
def FusionOrder.is_profitable_for_resolver (o : FusionOrder) (resolver_fee now : Nat) : Bool :=
  o.calculate_current_price now + resolver_fee ≤ o.taking_amount

/-- Modulus of the source's `u64` arithmetic: 2^64. -/
def U64 : Nat := 18446744073709551616

/-- Modulus of the source's `u32` secret-index field: 2^32. -/
def U32 : Nat := 4294967296

/-- Embedding of `partially_fill_order` from `src/orderbook/src/lib.rs`, as a transformer
of the looked-up order (the surrounding `get_fusion_order`/`store_fusion_order`
pair reads and writes the order store keyed by `order_id`).  The secret-index
derivation mirrors the source's machine arithmetic: the two products
`filled_amount * 100` and `percentage * secret_hashes.len()` are `u64`
multiplications (wrapping modulo 2^64 in release builds), and the resulting
index is cast `as u32` (modulo 2^32) when stored in the `PartialFill`. -/
def partially_fill_order (order : FusionOrder) (resolver_address : String)
    (fill_amount now : Nat) : Except FusionError (String × FusionOrder) :=
  if ¬ order.supports_partial_fills then .error .PartialFillsNotSupported
  else if fill_amount = 0 ∨ order.get_remaining_amount < fill_amount then
    .error .InvalidFillAmount
  else
    let current_fill_percentage :=
      match order.partial_fill_data with
      | some pd => pd.filled_amount * 100 % U64 / order.making_amount
      | none => 0
    let required_secret_index := current_fill_percentage * order.secret_hashes.length % U64 / 100
    let partial_fill : PartialFill :=
      { resolver_address := resolver_address
        fill_amount := fill_amount
        secret_index := required_secret_index % U32
        timestamp := now }
    match order.add_partial_fill partial_fill with
    | .error e => .error e
    | .ok order1 =>
      let order2 :=
        if order1.is_fully_filled then
          { order1 with
            status := .Completed
            fusion_state := .Completed
            completed_at := some now }
        else order1
      .ok ("partial_fill_" ++ order.id ++ "_" ++ toString now, order2)

end Orderbook

/-! ## Claim theorems -/

namespace EscrowManager

/-- C1: `calculate_conservative_timelocks(base_timelock, now)` fails with
`TimelockTooShort` unless `base_timelock > now + buffer + safety_margin`
(buffer = finality_buffer + coordination_buffer); otherwise it returns
`source_timelock = base_timelock` (ICP side) and
`destination_timelock = base_timelock - buffer` (EVM side), and every
returned pair is accepted by `validate_cross_chain_coordination`, which
accepts exactly the pairs with `source - destination ≥ buffer`. -/
theorem C1_conservative_timelocks (base_timelock now : Nat) :
    (calculate_conservative_timelocks base_timelock now = .error .TimelockTooShort ↔
      base_timelock ≤ now + TOTAL_BUFFER_NS + SAFETY_BUFFER_NS) ∧
    (∀ r, calculate_conservative_timelocks base_timelock now = .ok r →
      r.icp_timelock = base_timelock ∧
      r.evm_timelock = base_timelock - TOTAL_BUFFER_NS ∧
      validate_cross_chain_coordination r.icp_timelock r.evm_timelock = .ok () ∧
      TOTAL_BUFFER_NS ≤ r.icp_timelock - r.evm_timelock) ∧
    (∀ s d, validate_cross_chain_coordination s d = .ok () ↔ d + TOTAL_BUFFER_NS ≤ s) := by
  have htb : TOTAL_BUFFER_NS = 180000000000 := rfl
  have hsb : SAFETY_BUFFER_NS = 300000000000 := rfl
  have hval : ∀ s d, validate_cross_chain_coordination s d = .ok () ↔ d + TOTAL_BUFFER_NS ≤ s := by
    intro s d
    unfold validate_cross_chain_coordination
    rw [htb]
    split_ifs with h1 h2 <;> constructor <;> intro h <;> first
      | omega
      | simp_all
  refine ⟨?_, ?_, hval⟩
  · simp only [calculate_conservative_timelocks]
    split_ifs with h
    · simpa using h
    · simp only [reduceCtorEq, false_iff]
      omega
  · intro r hr
    simp only [calculate_conservative_timelocks] at hr
    split_ifs at hr with h
    simp only [Except.ok.injEq] at hr
    subst hr
    refine ⟨rfl, rfl, ?_, ?_⟩
    · rw [hval]
      dsimp only
      omega
    · dsimp only
      omega

/-- Witness for C1 at the concrete inputs named by the claim: with `now = 0`,
a base timelock one hour out succeeds and is accepted by the coordination
validator, while a base timelock five minutes out fails `TimelockTooShort`. -/
theorem C1_conservative_timelocks_witness :
    calculate_conservative_timelocks 300000000000 0 = .error .TimelockTooShort ∧
    validate_cross_chain_coordination 3600000000000 3420000000000 = .ok () ∧
    (calculate_conservative_timelocks 3600000000000 0).isOk = true := by
  refine ⟨(C1_conservative_timelocks 300000000000 0).1.mpr (by decide), ?_, by decide⟩
  exact ((C1_conservative_timelocks 0 0).2.2 3600000000000 3420000000000).mpr (by decide)

end EscrowManager

namespace Backend

/-- Success-path equation for `claim_escrow`. -/
theorem claim_escrow_success (st : EscrowStore) (eid : String) (preimage : List Nat)
    (now : Nat) (e : Escrow) (he : Store.lookup st eid = some e)
    (h1 : e.state = .Funded) (h2 : SHA256.sha256 preimage = e.hashlock)
    (h3 : now < e.timelock) :
    claim_escrow st eid preimage now =
      (.ok (), Store.insert st eid { e with state := .Claimed, updated_at := now }) := by
  unfold claim_escrow
  rw [he]
  dsimp only
  rw [if_neg (by simp [h1]), if_neg (by simp [verify_hashlock, h2]),
      if_neg (by simp [get_timelock_status, h3])]

/-- C2: `claim_escrow` succeeds exactly when the escrow exists in state
`Funded`, the SHA-256 digest of the preimage equals the stored hashlock, and
the timelock is `Active` (`now < timelock`); otherwise it fails with the
matching error kind (`EscrowNotFound` when absent, `InvalidState` when not
`Funded`, `InvalidHashlock` when the digest differs, `TimelockExpired` when
the timelock is `Expired`), and on success the escrow's state becomes
`Claimed`. -/
theorem C2_claim_characterization (st : EscrowStore) (eid : String)
    (preimage : List Nat) (now : Nat) :
    (∀ e, Store.lookup st eid = some e →
      (e.state = .Funded → SHA256.sha256 preimage = e.hashlock → now < e.timelock →
        claim_escrow st eid preimage now =
          (.ok (), Store.insert st eid { e with state := .Claimed, updated_at := now })) ∧
      (e.state ≠ .Funded → claim_escrow st eid preimage now = (.error .InvalidState, st)) ∧
      (e.state = .Funded → SHA256.sha256 preimage ≠ e.hashlock →
        claim_escrow st eid preimage now = (.error .InvalidHashlock, st)) ∧
      (e.state = .Funded → SHA256.sha256 preimage = e.hashlock → e.timelock ≤ now →
        claim_escrow st eid preimage now = (.error .TimelockExpired, st))) ∧
    (Store.lookup st eid = none →
      claim_escrow st eid preimage now = (.error .EscrowNotFound, st)) ∧
    ((claim_escrow st eid preimage now).1 = .ok () ↔
      ∃ e, Store.lookup st eid = some e ∧ e.state = .Funded ∧
        SHA256.sha256 preimage = e.hashlock ∧ now < e.timelock) := by
  refine ⟨?_, ?_, ?_⟩
  · intro e he
    refine ⟨fun h1 h2 h3 => claim_escrow_success st eid preimage now e he h1 h2 h3, ?_, ?_, ?_⟩
    · intro h1
      unfold claim_escrow
      rw [he]
      dsimp only
      rw [if_pos h1]
    · intro h1 h2
      unfold claim_escrow
      rw [he]
      dsimp only
      rw [if_neg (by simp [h1]), if_pos (by simp [verify_hashlock, h2])]
    · intro h1 h2 h3
      unfold claim_escrow
      rw [he]
      dsimp only
      rw [if_neg (by simp [h1]), if_neg (by simp [verify_hashlock, h2]),
          if_pos (by simp [get_timelock_status, Nat.not_lt.mpr h3])]
  · intro hnone
    unfold claim_escrow
    rw [hnone]
  · constructor
    · intro h
      cases hlk : Store.lookup st eid with
      | none =>
        unfold claim_escrow at h
        rw [hlk] at h
        simp at h
      | some e =>
        unfold claim_escrow at h
        rw [hlk] at h
        dsimp only at h
        split_ifs at h with h1 h2 h3
        refine ⟨e, rfl, not_not.mp h1, by simpa [verify_hashlock] using h2, ?_⟩
        have hA : get_timelock_status e.timelock now = .Active := by
          cases hgt : get_timelock_status e.timelock now with
          | Active => rfl
          | Expired => exact absurd hgt h3
        unfold get_timelock_status at hA
        split_ifs at hA with hlt
        exact hlt
    · rintro ⟨e, he, h1, h2, h3⟩
      rw [claim_escrow_success st eid preimage now e he h1 h2 h3]

/-- Funded escrow used by the concrete witnesses; its hashlock is the SHA-256
digest of the byte string 0x61 0x62 0x63 ("abc"). -/
def fundedEscrow : Escrow :=
  { id := "e1"
    hashlock := SHA256.sha256 [97, 98, 99]
    timelock := 100
    token_canister := 9
    amount := 100
    maker := 2
    state := .Funded
    created_at := 0
    updated_at := 0 }

/-- Witness for C2: on a funded escrow, the correct preimage before expiry
claims it (state becomes `Claimed`), a wrong preimage fails `InvalidHashlock`,
and the correct preimage after expiry fails `TimelockExpired`. -/
theorem C2_claim_characterization_witness :
    claim_escrow [("e1", fundedEscrow)] "e1" [97, 98, 99] 50 =
      (.ok (), [("e1", { fundedEscrow with state := .Claimed, updated_at := 50 })]) ∧
    claim_escrow [("e1", fundedEscrow)] "e1" [1, 2, 3] 50 =
      (.error .InvalidHashlock, [("e1", fundedEscrow)]) ∧
    claim_escrow [("e1", fundedEscrow)] "e1" [97, 98, 99] 100 =
      (.error .TimelockExpired, [("e1", fundedEscrow)]) := by
  refine ⟨?_, ?_, ?_⟩
  · exact (((C2_claim_characterization [("e1", fundedEscrow)] "e1" [97, 98, 99] 50).1
      fundedEscrow (by rfl)).1 rfl rfl (by decide)).trans rfl
  · exact ((C2_claim_characterization [("e1", fundedEscrow)] "e1" [1, 2, 3] 50).1
      fundedEscrow (by rfl)).2.2.1 rfl (by decide)
  · exact ((C2_claim_characterization [("e1", fundedEscrow)] "e1" [97, 98, 99] 100).1
      fundedEscrow (by rfl)).2.2.2 rfl rfl (by decide)

end Backend

namespace Backend

/-- Success-path equation for `refund_escrow`. -/
theorem refund_escrow_success (st : EscrowStore) (eid : String) (now : Nat)
    (e : Escrow) (he : Store.lookup st eid = some e)
    (h1 : e.state = .Funded) (h2 : e.timelock ≤ now) :
    refund_escrow st eid now =
      (.ok (), Store.insert st eid { e with state := .Refunded, updated_at := now }) := by
  unfold refund_escrow
  rw [he]
  dsimp only
  rw [if_neg (by simp [h1]), if_neg (by simp [get_timelock_status, Nat.not_lt.mpr h2])]

/-- C3: `refund_escrow` succeeds exactly when the escrow exists in state
`Funded` and the timelock is `Expired` (`now ≥ timelock`); a refund attempted
while the timelock is still `Active` fails `TimelockNotExpired`, a refund on
a non-`Funded` escrow fails `InvalidState`, and on success the escrow's state
becomes `Refunded`. -/
theorem C3_refund_characterization (st : EscrowStore) (eid : String) (now : Nat) :
    (∀ e, Store.lookup st eid = some e →
      (e.state = .Funded → e.timelock ≤ now →
        refund_escrow st eid now =
          (.ok (), Store.insert st eid { e with state := .Refunded, updated_at := now })) ∧
      (e.state = .Funded → now < e.timelock →
        refund_escrow st eid now = (.error .TimelockNotExpired, st)) ∧
      (e.state ≠ .Funded → refund_escrow st eid now = (.error .InvalidState, st))) ∧
    (Store.lookup st eid = none →
      refund_escrow st eid now = (.error .EscrowNotFound, st)) ∧
    ((refund_escrow st eid now).1 = .ok () ↔
      ∃ e, Store.lookup st eid = some e ∧ e.state = .Funded ∧ e.timelock ≤ now) := by
  refine ⟨?_, ?_, ?_⟩
  · intro e he
    refine ⟨fun h1 h2 => refund_escrow_success st eid now e he h1 h2, ?_, ?_⟩
    · intro h1 h2
      unfold refund_escrow
      rw [he]
      dsimp only
      rw [if_neg (by simp [h1]), if_pos (by simp [get_timelock_status, h2])]
    · intro h1
      unfold refund_escrow
      rw [he]
      dsimp only
      rw [if_pos h1]
  · intro hnone
    unfold refund_escrow
    rw [hnone]
  · constructor
    · intro h
      cases hlk : Store.lookup st eid with
      | none =>
        unfold refund_escrow at h
        rw [hlk] at h
        simp at h
      | some e =>
        unfold refund_escrow at h
        rw [hlk] at h
        dsimp only at h
        split_ifs at h with h1 h2
        refine ⟨e, rfl, not_not.mp h1, ?_⟩
        have hE : get_timelock_status e.timelock now = .Expired := not_not.mp h2
        unfold get_timelock_status at hE
        split_ifs at hE with hlt
        omega
    · rintro ⟨e, he, h1, h2⟩
      rw [refund_escrow_success st eid now e he h1 h2]

/-- Witness for C3: refunding the funded escrow before expiry fails
`TimelockNotExpired`; after expiry it succeeds and the state becomes
`Refunded`. -/
theorem C3_refund_characterization_witness :
    refund_escrow [("e1", fundedEscrow)] "e1" 50 =
      (.error .TimelockNotExpired, [("e1", fundedEscrow)]) ∧
    refund_escrow [("e1", fundedEscrow)] "e1" 150 =
      (.ok (), [("e1", { fundedEscrow with state := .Refunded, updated_at := 150 })]) := by
  constructor
  · exact ((C3_refund_characterization [("e1", fundedEscrow)] "e1" 50).1
      fundedEscrow (by rfl)).2.1 rfl (by decide)
  · exact (((C3_refund_characterization [("e1", fundedEscrow)] "e1" 150).1
      fundedEscrow (by rfl)).1 rfl (by decide)).trans rfl

end Backend

namespace Backend

/-- First creation request used in the same-timestamp collision scenario. -/
def c10Params1 : CreateEscrowParams :=
  { maker := 10, hashlock := [1], token_canister := 9, amount := 100, timelock := 2000 }

/-- Second creation request used in the same-timestamp collision scenario. -/
def c10Params2 : CreateEscrowParams :=
  { maker := 11, hashlock := [2], token_canister := 9, amount := 200, timelock := 3000 }

/-- C10 (code bug): `create_escrow` derives the escrow id as
`format!("escrow_{}", time())`, so two valid creations executing at the same
timestamp (`now = 1000`) both succeed with the *same* id `"escrow_1000"`, and
the second `insert` overwrites the first escrow record — only the second
record survives in the store.  This contradicts the claimed id freshness
(and the source's own "Generate unique escrow ID" comment, whose TODO
acknowledges the missing collision resistance). -/
theorem C10_same_timestamp_collision :
    (create_escrow [] 2 c10Params1 1000).1 = .ok "escrow_1000" ∧
    (create_escrow (create_escrow [] 2 c10Params1 1000).2 3 c10Params2 1000).1 =
      .ok "escrow_1000" ∧
    (create_escrow (create_escrow [] 2 c10Params1 1000).2 3 c10Params2 1000).2 =
      [("escrow_1000",
        { id := "escrow_1000", hashlock := [2], timelock := 3000, token_canister := 9,
          amount := 200, maker := 11, state := .Created,
          created_at := 1000, updated_at := 1000 })] := by
  refine ⟨rfl, rfl, rfl⟩

end Backend

namespace Backend

/-- Inserting into the filled/cancelled marker set makes `contains` true. -/
theorem setInsert_contains_self (s : List Nat) (x : Nat) :
    (Store.setInsert s x).contains x = true := by
  unfold Store.setInsert
  split_ifs with h
  · exact h
  · simp

/-- For a present, unexpired, uncancelled, unfilled order the active check of
`memory.rs` holds. -/
theorem is_order_active_true (st : OrdersState) (o : Order) (now : Nat)
    (horder : Store.lookup st.orders o.id = some o)
    (hexp : now < o.expiration)
    (hnf : st.filled.contains o.id = false)
    (hnc : st.cancelled.contains o.id = false) :
    is_order_active st o.id now = true := by
  unfold is_order_active
  rw [horder]
  dsimp only
  unfold Order.is_active Order.get_state
  rw [if_neg (by omega), if_neg (by rw [hnf]; simp), if_neg (by rw [hnc]; simp)]
  rfl

/-- An order already in the filled marker set is not active. -/
theorem is_order_active_false_of_filled (st : OrdersState) (o : Order) (now : Nat)
    (horder : Store.lookup st.orders o.id = some o)
    (hexp : now < o.expiration)
    (hf : st.filled.contains o.id = true) :
    is_order_active st o.id now = false := by
  unfold is_order_active
  rw [horder]
  dsimp only
  unfold Order.is_active Order.get_state
  rw [if_neg (by omega), if_pos (by rw [hf])]
  rfl

/-- Phases 1–3 of `fill_order` reject a non-allowed taker with `Unauthorized`. -/
theorem fill_order_check_unauthorized (st : OrdersState) (o : Order)
    (allowed taker now : Nat)
    (horder : Store.lookup st.orders o.id = some o)
    (hexp : now < o.expiration)
    (hallowed : o.allowed_taker = some allowed)
    (hnf : st.filled.contains o.id = false)
    (hnc : st.cancelled.contains o.id = false)
    (htaker : taker ≠ allowed) :
    fill_order_check st taker o.id now = .error .Unauthorized := by
  unfold fill_order_check
  rw [horder]
  dsimp only
  rw [if_neg (by simp [is_order_active_true st o now horder hexp hnf hnc]), hallowed]
  dsimp only
  rw [if_pos htaker]

/-- Phases 1–3 of `fill_order` accept the allowed taker of an active order. -/
theorem fill_order_check_ok (st : OrdersState) (o : Order) (allowed now : Nat)
    (horder : Store.lookup st.orders o.id = some o)
    (hexp : now < o.expiration)
    (hallowed : o.allowed_taker = some allowed)
    (hnf : st.filled.contains o.id = false)
    (hnc : st.cancelled.contains o.id = false) :
    fill_order_check st allowed o.id now = .ok o := by
  unfold fill_order_check
  rw [horder]
  dsimp only
  rw [if_neg (by simp [is_order_active_true st o now horder hexp hnf hnc]), hallowed]
  dsimp only
  rw [if_neg (by simp)]

/-- Phases 1–2 of `fill_order` reject an already-filled, unexpired order with
`OrderAlreadyFilled`, for every caller. -/
theorem fill_order_check_already_filled (st : OrdersState) (o : Order)
    (taker now : Nat)
    (horder : Store.lookup st.orders o.id = some o)
    (hexp : now < o.expiration)
    (hf : st.filled.contains o.id = true) :
    fill_order_check st taker o.id now = .error .OrderAlreadyFilled := by
  unfold fill_order_check
  rw [horder]
  dsimp only
  rw [if_pos (by simp [is_order_active_false_of_filled st o now horder hexp hf]),
      if_neg (by omega), if_pos hf]

/-- C4: for an unexpired order carrying a maker-designated exclusive taker,
`fill_order` by any other principal fails `Unauthorized` and leaves the order
unfilled; `fill_order` by the allowed taker succeeds (marking the order
filled), and every subsequent `fill_order` call on the same still-unexpired
order — by any caller, under any ledger environment — fails
`OrderAlreadyFilled`. -/
theorem C4_exclusive_taker_at_most_once (env : LedgerEnv) (st : OrdersState)
    (o : Order) (allowed taker now : Nat)
    (horder : Store.lookup st.orders o.id = some o)
    (hexp : now < o.expiration)
    (hallowed : o.allowed_taker = some allowed)
    (hnc : st.cancelled.contains o.id = false) :
    (st.filled.contains o.id = false → taker ≠ allowed →
      fill_order env st taker o.id now = (.error .Unauthorized, st)) ∧
    (st.filled.contains o.id = false →
      (if o.taker_asset ≠ managementCanister then
         check_taker_balance env o.taker_asset allowed o.taking_amount
       else .ok ()) = .ok () →
      execute_order_transfers env o allowed = .ok () →
      fill_order env st allowed o.id now = (.ok (), mark_order_filled st o.id)) ∧
    (st.filled.contains o.id = true →
      ∀ t, fill_order env st t o.id now = (.error .OrderAlreadyFilled, st)) ∧
    (st.filled.contains o.id = false →
      (if o.taker_asset ≠ managementCanister then
         check_taker_balance env o.taker_asset allowed o.taking_amount
       else .ok ()) = .ok () →
      execute_order_transfers env o allowed = .ok () →
      ∀ env2 t now2, now2 < o.expiration →
        fill_order env2 (fill_order env st allowed o.id now).2 t o.id now2 =
          (.error .OrderAlreadyFilled, (fill_order env st allowed o.id now).2)) := by
  have hfill : st.filled.contains o.id = false →
      (if o.taker_asset ≠ managementCanister then
         check_taker_balance env o.taker_asset allowed o.taking_amount
       else .ok ()) = .ok () →
      execute_order_transfers env o allowed = .ok () →
      fill_order env st allowed o.id now = (.ok (), mark_order_filled st o.id) := by
    intro hnf hbal htr
    unfold fill_order
    rw [fill_order_check_ok st o allowed now horder hexp hallowed hnf hnc]
    dsimp only
    rw [hbal]
    dsimp only
    rw [htr]
    rfl
  refine ⟨?_, hfill, ?_, ?_⟩
  · intro hnf htaker
    unfold fill_order
    rw [fill_order_check_unauthorized st o allowed taker now horder hexp hallowed hnf hnc htaker]
  · intro hf t
    unfold fill_order
    rw [fill_order_check_already_filled st o t now horder hexp hf]
  · intro hnf hbal htr env2 t now2 hexp2
    rw [hfill hnf hbal htr]
    unfold fill_order
    rw [fill_order_check_already_filled (mark_order_filled st o.id) o t now2 horder hexp2
      (setInsert_contains_self st.filled o.id)]

end Backend

namespace Backend

/-- Ledger environment in which every balance query reports a large balance
and every transfer succeeds. -/
def trivialEnv : LedgerEnv :=
  { balance_result := fun _ _ => .ok 1000000000
    transfer_outcome := fun _ _ _ => .success 1 }

/-- Concrete exclusive-taker order (test-mode assets, so the fill path has no
ledger calls): taker 7 is the maker-designated exclusive taker. -/
def c4Order : Order :=
  { id := 1, maker := 4, receiver := 5, maker_asset := 0, taker_asset := 0
    making_amount := 1000, taking_amount := 2000, expiration := 1000
    created_at := 0, allowed_taker := some 7 }

/-- Initial order store holding only the exclusive-taker order. -/
def c4State : OrdersState :=
  { orders := [(1, c4Order)], filled := [], cancelled := [], order_counter := 1 }

/-- Witness for C4: taker 9 is rejected with `Unauthorized`, taker 7 fills
exactly once, and the repeated fill by taker 7 fails `OrderAlreadyFilled`. -/
theorem C4_exclusive_taker_at_most_once_witness :
    fill_order trivialEnv c4State 9 1 10 = (.error .Unauthorized, c4State) ∧
    fill_order trivialEnv c4State 7 1 10 = (.ok (), mark_order_filled c4State 1) ∧
    fill_order trivialEnv (mark_order_filled c4State 1) 7 1 20 =
      (.error .OrderAlreadyFilled, mark_order_filled c4State 1) := by
  have h := C4_exclusive_taker_at_most_once trivialEnv c4State c4Order 7 9 10
    (by rfl) (by decide) rfl (by rfl)
  refine ⟨h.1 rfl (by decide), h.2.1 rfl (by rfl) (by rfl), ?_⟩
  have h4 := h.2.2.2 rfl (by rfl) (by rfl) trivialEnv 7 20 (by decide)
  rw [h.2.1 rfl (by rfl) (by rfl)] at h4
  exact h4

end Backend

namespace Backend

/-- Concrete order on real (non-test-mode) assets, so that filling it spans
asynchronous ledger calls: maker asset 2, taker asset 3, exclusive taker 7. -/
def c5Order : Order :=
  { id := 1, maker := 4, receiver := 5, maker_asset := 2, taker_asset := 3
    making_amount := 1000, taking_amount := 2000, expiration := 1000000
    created_at := 0, allowed_taker := some 7 }

/-- Initial order store holding only that order. -/
def c5State : OrdersState :=
  { orders := [(1, c5Order)], filled := [], cancelled := [], order_counter := 1 }

/-- C5 (code bug): re-entry during `fill_order`'s asynchronous transfer window
is NOT rejected.  The source re-checks no marker after any `await`: once the
pre-suspension checks (`fill_order_check`) have passed, the continuation that
runs when the last transfer call returns (`fill_order_finalize`, i.e.
phase 6 `update_order_filled_state`) marks the order filled and reports
success unconditionally.  Concretely: message A (taker 7) passes its
pre-suspension checks on `c5State` and suspends on its ledger calls; a
concurrent fill B commits during the suspension, marking order 1 filled; yet
A's resumption still returns `Ok` and marks the order filled again instead of
aborting — the claimed re-validation does not exist in the code. -/
theorem C5_resumed_fill_not_aborted :
    fill_order_check c5State 7 1 100 = .ok c5Order ∧
    fill_order trivialEnv c5State 7 1 100 = (.ok (), mark_order_filled c5State 1) ∧
    (mark_order_filled c5State 1).filled.contains 1 = true ∧
    fill_order_finalize (mark_order_filled c5State 1) 1 =
      (.ok (), mark_order_filled (mark_order_filled c5State 1) 1) ∧
    (fill_order_finalize (mark_order_filled c5State 1) 1).1 ≠
      .error .OrderAlreadyFilled := by
  refine ⟨rfl, rfl, rfl, rfl, by simp [fill_order_finalize]⟩

end Backend

namespace Backend

/-- The embedded `TokenInterface::transfer` can only fail as `TransferFailed` (ledger
rejected) or `TokenCallFailed` (call failed). -/
theorem token_transfer_error_shape (env : LedgerEnv) (c t a : Nat) (e : OrderError)
    (h : token_transfer env c t a = .error e) :
    (∃ m, e = .TransferFailed m) ∨ (∃ m, e = .TokenCallFailed m) := by
  unfold token_transfer at h
  cases henv : env.transfer_outcome c t a <;> rw [henv] at h <;> dsimp only at h
  · exact absurd h (by simp)
  · exact .inl ⟨_, (Except.error.injEq _ _ ▸ h).symm⟩
  · exact .inr ⟨_, (Except.error.injEq _ _ ▸ h).symm⟩

/-- C8: in a fill where the first transfer leg succeeded and the second leg
failed, a failed compensating reversal yields a `SystemError` carrying both
underlying failures (and the first leg's block index), while a successful
reversal yields the ordinary transfer error — and those two outcomes are
distinct in kind, since the ordinary error is always a `TransferFailed` or
`TokenCallFailed`, never a `SystemError`. -/
theorem C8_failed_rollback_is_system_error (env : LedgerEnv) (o : Order)
    (taker bt bm b1 : Nat) (e : OrderError)
    (hma : o.maker_asset ≠ managementCanister)
    (hta : o.taker_asset ≠ managementCanister)
    (hbal1 : balance_of env o.taker_asset taker = .ok bt)
    (h1 : ¬ bt < o.taking_amount)
    (hbal2 : balance_of env o.maker_asset o.maker = .ok bm)
    (h2 : ¬ bm < o.making_amount)
    (hleg1 : token_transfer env o.taker_asset o.receiver o.taking_amount = .ok b1)
    (hleg2 : token_transfer env o.maker_asset taker o.making_amount = .error e) :
    (∀ re, token_transfer env o.taker_asset taker o.taking_amount = .error re →
      execute_order_transfers env o taker =
        .error (.SystemError
          ("Transfer failed and rollback failed. Original: " ++ orderErrorDebug e ++
           ", Rollback: " ++ orderErrorDebug re ++
           ", TakerBlockIndex: " ++ toString b1)) ∧
      ∀ m : String,
        (OrderError.SystemError
          ("Transfer failed and rollback failed. Original: " ++ orderErrorDebug e ++
           ", Rollback: " ++ orderErrorDebug re ++
           ", TakerBlockIndex: " ++ toString b1)) ≠ .TransferFailed m ∧
        (OrderError.SystemError
          ("Transfer failed and rollback failed. Original: " ++ orderErrorDebug e ++
           ", Rollback: " ++ orderErrorDebug re ++
           ", TakerBlockIndex: " ++ toString b1)) ≠ .TokenCallFailed m) ∧
    (∀ rb, token_transfer env o.taker_asset taker o.taking_amount = .ok rb →
      execute_order_transfers env o taker = .error e) ∧
    ((∃ m, e = .TransferFailed m) ∨ (∃ m, e = .TokenCallFailed m)) := by
  have hbase : ∀ res : Except OrderError Unit,
      (match token_transfer env o.maker_asset taker o.making_amount with
        | .ok _ => Except.ok ()
        | .error e' =>
          match token_transfer env o.taker_asset taker o.taking_amount with
          | .ok _ => Except.error e'
          | .error rollback_error =>
            .error (.SystemError
              ("Transfer failed and rollback failed. Original: " ++ orderErrorDebug e' ++
               ", Rollback: " ++ orderErrorDebug rollback_error ++
               ", TakerBlockIndex: " ++ toString b1))) = res →
      execute_order_transfers env o taker = res := by
    intro res hres
    unfold execute_order_transfers
    rw [if_neg (by simp [hma, hta]), hbal1]
    dsimp only
    rw [if_neg h1, hbal2]
    dsimp only
    rw [if_neg h2, hleg1]
    dsimp only
    exact hres
  refine ⟨?_, ?_, token_transfer_error_shape env o.maker_asset taker o.making_amount e hleg2⟩
  · intro re hre
    refine ⟨hbase _ ?_, fun m => ⟨by simp, by simp⟩⟩
    rw [hleg2]
    dsimp only
    rw [hre]
  · intro rb hrb
    refine hbase _ ?_
    rw [hleg2]
    dsimp only
    rw [hrb]

end Backend

namespace Backend

/-- Ledger environment for the rollback-failure scenario on `c5Order`: the
taker leg (canister 3 → receiver 5) succeeds with block index 42, the maker
leg (canister 2) is rejected, and the compensating reversal (canister 3 →
taker 7) is also rejected. -/
def c8EnvRollbackFails : LedgerEnv :=
  { balance_result := fun _ _ => .ok 1000000000
    transfer_outcome := fun c t _ =>
      if c = 3 ∧ t = 5 then .success 42
      else if c = 2 then .transferError "maker leg rejected"
      else .transferError "rollback rejected" }

/-- Same scenario except that the compensating reversal succeeds. -/
def c8EnvRollbackOk : LedgerEnv :=
  { balance_result := fun _ _ => .ok 1000000000
    transfer_outcome := fun c t _ =>
      if c = 3 ∧ t = 5 then .success 42
      else if c = 2 then .transferError "maker leg rejected"
      else .success 43 }

/-- Witness for C8: with the failed reversal the fill surfaces a
`SystemError` naming both underlying failures and the committed block index;
with the successful reversal it surfaces the ordinary `TransferFailed`. -/
theorem C8_failed_rollback_is_system_error_witness :
    execute_order_transfers c8EnvRollbackFails c5Order 7 =
      .error (.SystemError
        ("Transfer failed and rollback failed. Original: " ++
         "TransferFailed(\"Transfer failed: maker leg rejected\")" ++
         ", Rollback: " ++ "TransferFailed(\"Transfer failed: rollback rejected\")" ++
         ", TakerBlockIndex: " ++ "42")) ∧
    execute_order_transfers c8EnvRollbackOk c5Order 7 =
      .error (.TransferFailed "Transfer failed: maker leg rejected") := by
  constructor
  · have h := (C8_failed_rollback_is_system_error c8EnvRollbackFails c5Order 7
      1000000000 1000000000 42 (.TransferFailed "Transfer failed: maker leg rejected")
      (by decide) (by decide) rfl (by decide) rfl (by decide) rfl rfl).1
      (.TransferFailed "Transfer failed: rollback rejected") rfl
    exact h.1.trans (by rfl)
  · exact (C8_failed_rollback_is_system_error c8EnvRollbackOk c5Order 7
      1000000000 1000000000 42 (.TransferFailed "Transfer failed: maker leg rejected")
      (by decide) (by decide) rfl (by decide) rfl (by decide) rfl rfl).2.1 43 rfl

end Backend

namespace Orderbook

/-- Apply a sequence of `add_fill` calls; a failed call leaves the data
unchanged, as in the source (the error is returned before any mutation). -/
def applyFills (d : PartialFillData) : List PartialFill → PartialFillData
  | [] => d
  | f :: fs =>
    match d.add_fill f with
    | .ok d2 => applyFills d2 fs
    | .error _ => applyFills d fs

/-- Unfolding of a successful `add_fill`. -/
theorem add_fill_ok (d : PartialFillData) (f : PartialFill) (d2 : PartialFillData)
    (h : d.add_fill f = .ok d2) :
    f.fill_amount ≤ d.remaining_amount ∧
    d2.filled_amount = d.filled_amount + f.fill_amount ∧
    d2.remaining_amount = d.remaining_amount - f.fill_amount ∧
    d2.fills = d.fills ++ [f] := by
  unfold PartialFillData.add_fill at h
  split_ifs at h with hc
  simp only [Except.ok.injEq] at h
  subst h
  exact ⟨by omega, rfl, rfl, rfl⟩

/-- The embedded `add_fill` fails, with `InsufficientRemainingAmount`, exactly when the
requested amount exceeds the remaining amount. -/
theorem add_fill_error_iff (d : PartialFillData) (f : PartialFill) :
    d.add_fill f = .error .InsufficientRemainingAmount ↔
      d.remaining_amount < f.fill_amount := by
  unfold PartialFillData.add_fill
  split_ifs with hc
  · exact iff_of_true rfl hc
  · exact iff_of_false (by simp) (by omega)

/-- The conservation invariant `filled + remaining = total` together with
`Σ recorded fill amounts = filled` is preserved by any sequence of
`add_fill` calls. -/
theorem applyFills_invariant (making : Nat) (d : PartialFillData)
    (fs : List PartialFill)
    (h1 : d.filled_amount + d.remaining_amount = making)
    (h2 : (d.fills.map PartialFill.fill_amount).sum = d.filled_amount) :
    (applyFills d fs).filled_amount + (applyFills d fs).remaining_amount = making ∧
    ((applyFills d fs).fills.map PartialFill.fill_amount).sum =
      (applyFills d fs).filled_amount := by
  induction fs generalizing d with
  | nil => exact ⟨h1, h2⟩
  | cons f fs ih =>
    simp only [applyFills]
    cases haf : d.add_fill f with
    | ok d2 =>
      obtain ⟨hle, hfa, hra, hfs⟩ := add_fill_ok d f d2 haf
      dsimp only
      exact ih d2 (by omega) (by rw [hfs]; simp [h2, hfa])
    | error _ =>
      dsimp only
      exact ih d h1 h2

/-- A successful `partially_fill_order` transitions the order to `Completed`
(status and fusion state) exactly when the remaining amount has reached zero;
otherwise it leaves status and fusion state unchanged. -/
theorem partially_fill_order_completion (o : FusionOrder) (addr : String)
    (amt now : Nat) (fid : String) (o2 : FusionOrder)
    (h : partially_fill_order o addr amt now = .ok (fid, o2)) :
    (o2.get_remaining_amount = 0 → o2.status = .Completed ∧ o2.fusion_state = .Completed) ∧
    (o2.get_remaining_amount ≠ 0 → o2.status = o.status ∧ o2.fusion_state = o.fusion_state) := by
  unfold partially_fill_order at h
  split_ifs at h with hs hv
  cases hpd : o.partial_fill_data with
  | none => simp [FusionOrder.supports_partial_fills, hpd] at hs
  | some pd =>
    rw [hpd] at h
    dsimp only at h
    unfold FusionOrder.add_partial_fill at h
    rw [hpd] at h
    dsimp only at h
    cases haf : pd.add_fill
        { resolver_address := addr
          fill_amount := amt
          secret_index := pd.filled_amount * 100 % U64 / o.making_amount *
            o.secret_hashes.length % U64 / 100 % U32
          timestamp := now } with
    | error e => rw [haf] at h; simp at h
    | ok pd2 =>
      rw [haf] at h
      dsimp only at h
      split_ifs at h with hfull
      · simp only [Except.ok.injEq, Prod.mk.injEq] at h
        have ho2 := h.2
        subst ho2
        constructor
        · intro _
          exact ⟨rfl, rfl⟩
        · intro hrem
          exfalso
          apply hrem
          simp only [FusionOrder.get_remaining_amount]
          unfold FusionOrder.is_fully_filled PartialFillData.is_fully_filled at hfull
          simp only at hfull
          simpa using hfull
      · simp only [Except.ok.injEq, Prod.mk.injEq] at h
        have ho2 := h.2
        subst ho2
        constructor
        · intro hrem
          exfalso
          unfold FusionOrder.is_fully_filled PartialFillData.is_fully_filled at hfull
          simp only [FusionOrder.get_remaining_amount] at hrem
          simp [hrem] at hfull
        · intro _
          exact ⟨rfl, rfl⟩

end Orderbook

namespace Orderbook

/-- C6: starting from partial-fill data initialized with
`remaining = making_amount` and `filled = 0`, after any sequence of
`add_fill` calls: `add_fill` fails with `InsufficientRemainingAmount`
exactly when the requested amount exceeds the remaining amount, and
otherwise decrements the remaining amount and appends the fill record;
`filled + remaining = making_amount` holds at all times, so the sum of all
recorded fill amounts is at most `making_amount`; and the order is reported
fully filled — and transitioned to `Completed` by `partially_fill_order` —
exactly when `remaining = 0`. -/
theorem C6_partial_fill_invariants (making parts : Nat) (root : String)
    (fs : List PartialFill) (d : PartialFillData)
    (hd : d = applyFills (PartialFillData.new parts making root) fs) :
    (d.filled_amount + d.remaining_amount = making) ∧
    ((d.fills.map PartialFill.fill_amount).sum = d.filled_amount) ∧
    ((d.fills.map PartialFill.fill_amount).sum ≤ making) ∧
    (∀ f, d.add_fill f = .error .InsufficientRemainingAmount ↔
      d.remaining_amount < f.fill_amount) ∧
    (∀ f d2, d.add_fill f = .ok d2 →
      d2.filled_amount = d.filled_amount + f.fill_amount ∧
      d2.remaining_amount = d.remaining_amount - f.fill_amount ∧
      d2.fills = d.fills ++ [f]) ∧
    (d.is_fully_filled = true ↔ d.remaining_amount = 0) ∧
    (∀ (o : FusionOrder) (addr : String) (amt now : Nat) (fid : String)
        (o2 : FusionOrder),
      o.partial_fill_data = some d →
      partially_fill_order o addr amt now = .ok (fid, o2) →
      (o2.get_remaining_amount = 0 →
        o2.status = .Completed ∧ o2.fusion_state = .Completed) ∧
      (o2.get_remaining_amount ≠ 0 →
        o2.status = o.status ∧ o2.fusion_state = o.fusion_state)) := by
  have hinv := applyFills_invariant making (PartialFillData.new parts making root) fs
    (by simp [PartialFillData.new]) (by simp [PartialFillData.new])
  rw [← hd] at hinv
  refine ⟨hinv.1, hinv.2, by rw [hinv.2]; omega, fun f => add_fill_error_iff d f,
    fun f d2 h => (add_fill_ok d f d2 h).2, ?_,
    fun o addr amt now fid o2 _ h =>
      partially_fill_order_completion o addr amt now fid o2 h⟩
  simp [PartialFillData.is_fully_filled]

/-- One 60-token partial fill record. -/
def c6Fill60 : PartialFill :=
  { resolver_address := "r", fill_amount := 60, secret_index := 0, timestamp := 0 }

/-- Partial-fill data for a 100-token order after one 60-token fill. -/
def c6Data : PartialFillData :=
  applyFills (PartialFillData.new 2 100 "root") [c6Fill60]

/-- A fusion order carrying `c6Data` (100 making, 40 remaining). -/
def c6Order : FusionOrder :=
  { id := "o1", making_amount := 100, taking_amount := 200
    secret_hashes := ["h0", "h1"], status := .Pending
    fusion_state := .AnnouncementPhase, expires_at := 10000, completed_at := none
    auction_start_timestamp := 0, auction_start_rate := 240
    minimum_return_amount := 190, price_curve := PriceCurve.default_curve 200 3600
    partial_fill_data := some c6Data }

/-- The order produced by the final 40-token partial fill of `c6Order`. -/
def c6Result : FusionOrder :=
  match partially_fill_order c6Order "r" 40 5 with
  | .ok (_, o2) => o2
  | .error _ => c6Order

/-- Witness for C6: after a 60-token fill of the 100-token order the
conservation sum still equals 100, an oversized 50-token `add_fill` fails
`InsufficientRemainingAmount`, and the exact 40-token `partially_fill_order`
drives the order to `Completed`. -/
theorem C6_partial_fill_invariants_witness :
    c6Data.filled_amount + c6Data.remaining_amount = 100 ∧
    c6Data.add_fill
      { resolver_address := "r", fill_amount := 50, secret_index := 0, timestamp := 1 } =
        .error .InsufficientRemainingAmount ∧
    c6Result.status = .Completed ∧ c6Result.fusion_state = .Completed := by
  have h := C6_partial_fill_invariants 100 2 "root" [c6Fill60] c6Data rfl
  have hc := h.2.2.2.2.2.2 c6Order "r" 40 5 "partial_fill_o1_5" c6Result rfl (by rfl)
  have hdone := hc.1 (by decide)
  exact ⟨h.1, (h.2.2.2.1 _).mpr (by decide), hdone.1, hdone.2⟩

end Orderbook

namespace Orderbook

/-- A segment found by the lookup loop contains the elapsed time in its
window. -/
theorem findSegment_window (segs : List PriceSegment) (e : Nat) (s : PriceSegment)
    (h : findSegment segs e = some s) : s.start_time ≤ e ∧ e < s.end_time := by
  induction segs with
  | nil => simp [findSegment] at h
  | cons a rest ih =>
    unfold findSegment at h
    split_ifs at h with hc
    · simp only [Option.some.injEq] at h
      subst h
      exact hc
    · exact ih h

/-- A segment found by the lookup loop is one of the curve's segments. -/
theorem findSegment_mem (segs : List PriceSegment) (e : Nat) (s : PriceSegment)
    (h : findSegment segs e = some s) : s ∈ segs := by
  induction segs with
  | nil => simp [findSegment] at h
  | cons a rest ih =>
    unfold findSegment at h
    split_ifs at h with hc
    · simp only [Option.some.injEq] at h
      subst h
      exact List.mem_cons_self a rest
    · exact List.mem_cons_of_mem a (ih h)

/-- Before the total duration, the price is the matching segment's
interpolation. -/
theorem calculate_price_of_findSegment (c : PriceCurve) (e : Nat) (s : PriceSegment)
    (he : e < c.total_duration) (h : findSegment c.segments e = some s) :
    c.calculate_price e = segmentPrice s e := by
  unfold PriceCurve.calculate_price
  rw [if_neg (by omega), h]

/-- Within one segment with non-increasing endpoint prices, the linear
interpolation is antitone in the elapsed time. -/
theorem segmentPrice_antitone (s : PriceSegment) (e1 e2 : Nat)
    (_hwf : s.end_price ≤ s.start_price)
    (h1 : s.start_time ≤ e1) (hle : e1 ≤ e2) (_h2 : e2 < s.end_time) :
    segmentPrice s e2 ≤ segmentPrice s e1 := by
  simp only [segmentPrice]
  split_ifs with hd
  · exact Nat.le_refl _
  · exact Nat.sub_le_sub_left
      (Nat.div_le_div_right (Nat.mul_le_mul_left _ (by omega))) _

/-- C7: within one segment of a price curve whose segments have
non-increasing endpoint prices, the Dutch-auction price is non-increasing
(for elapsed times inside the curve's duration; the product bound keeps the
`Nat` model in the `u64` range of the source); and once the elapsed time
reaches the total duration, `calculate_current_price` returns the final
segment's end price clamped from below by `minimum_return_amount`. -/
theorem C7_price_nonincreasing_and_clamped (c : PriceCurve)
    (hwf : ∀ s ∈ c.segments, s.end_price ≤ s.start_price) :
    (∀ s e1 e2,
      findSegment c.segments e1 = some s →
      findSegment c.segments e2 = some s →
      e1 ≤ e2 → e1 < c.total_duration → e2 < c.total_duration →
      (s.start_price - s.end_price) * (e2 - s.start_time) < 18446744073709551616 →
      c.calculate_price e2 ≤ c.calculate_price e1) ∧
    (∀ (o : FusionOrder) (now : Nat),
      o.price_curve = c →
      o.auction_start_timestamp ≤ now →
      c.total_duration ≤ now - o.auction_start_timestamp →
      o.calculate_current_price now =
        max (((c.segments.getLast?).map PriceSegment.end_price).getD 0)
          o.minimum_return_amount ∧
      o.minimum_return_amount ≤ o.calculate_current_price now) := by
  constructor
  · intro s e1 e2 hf1 hf2 hle he1 he2 _
    rw [calculate_price_of_findSegment c e1 s he1 hf1,
        calculate_price_of_findSegment c e2 s he2 hf2]
    exact segmentPrice_antitone s e1 e2 (hwf s (findSegment_mem c.segments e1 s hf1))
      (findSegment_window c.segments e1 s hf1).1 hle
      (findSegment_window c.segments e2 s hf2).2
  · intro o now hcurve hstart hdur
    unfold FusionOrder.calculate_current_price
    rw [if_neg (by omega)]
    rw [hcurve]
    unfold PriceCurve.calculate_price
    dsimp only
    rw [if_pos hdur]
    exact ⟨rfl, le_max_right _ _⟩

/-- Witness for C7: on the default curve of a 1000-unit order the price at
elapsed 600 does not exceed the price at elapsed 0, and on `c6Order` (spot
200, duration 3600, minimum 190) the price at the total duration equals the
clamped floor 190. -/
theorem C7_price_nonincreasing_and_clamped_witness :
    PriceCurve.calculate_price (PriceCurve.default_curve 1000 3600) 600 ≤
      PriceCurve.calculate_price (PriceCurve.default_curve 1000 3600) 0 ∧
    c6Order.calculate_current_price 3600 = 190 ∧
    190 ≤ c6Order.calculate_current_price 3600 := by
  have h1 := (C7_price_nonincreasing_and_clamped (PriceCurve.default_curve 1000 3600)
      (by decide)).1
    { start_time := 0, end_time := 1200, start_price := 1200, end_price := 1000,
      decrease_rate := 0 }
    0 600 (by decide) (by decide) (by decide) (by decide) (by decide) (by decide)
  have h2 := (C7_price_nonincreasing_and_clamped (PriceCurve.default_curve 200 3600)
      (by decide)).2 c6Order 3600 rfl (by decide) (by decide)
  exact ⟨h1, h2.1.trans (by decide), h2.1 ▸ (by decide)⟩

end Orderbook

namespace Orderbook

/-- The fills recorded in an order's partial-fill data. -/
def recordedFills (o : FusionOrder) : List PartialFill :=
  match o.partial_fill_data with
  | some pd => pd.fills
  | none => []

/-- Apply a sequence of `partially_fill_order` calls
(resolver address, fill amount, timestamp); a failed call leaves the order
unchanged, as in the source. -/
def applyPartialFillCalls (o : FusionOrder) : List (String × Nat × Nat) → FusionOrder
  | [] => o
  | (addr, amt, t) :: rest =>
    match partially_fill_order o addr amt t with
    | .ok (_, o2) => applyPartialFillCalls o2 rest
    | .error _ => applyPartialFillCalls o rest

/-- The secret indices `partially_fill_order` derives for successive fills:
for cumulative filled amount `filled` before the fill, the index is
`filled * 100 % 2^64 / making * L % 2^64 / 100 % 2^32` where `L` is the
number of secret hashes — the source's `u64` products and `u32` cast made
explicit. -/
def expectedIndices (making L : Nat) : Nat → List Nat → List Nat
  | _, [] => []
  | filled, a :: rest =>
    (filled * 100 % U64 / making * L % U64 / 100 % U32) ::
      expectedIndices making L (filled + a) rest

/-- When `making * 100` fits in a `u64` and the secret-hash count fits in a
`u32`, none of the index arithmetic wraps: the machine computation equals the
plain formula `filled * 100 / making * L / 100` for every cumulative amount
within the order. -/
theorem deriveIdx_nowrap (making L filled : Nat) (hf : filled ≤ making)
    (hm : making * 100 < U64) (hL : L < U32) :
    filled * 100 % U64 / making * L % U64 / 100 % U32 =
      filled * 100 / making * L / 100 := by
  rcases Nat.eq_zero_or_pos making with h0 | hpos
  · subst h0
    have hf0 : filled = 0 := Nat.le_zero.mp hf
    subst hf0
    simp
  · have h1 : filled * 100 < U64 :=
      lt_of_le_of_lt (Nat.mul_le_mul_right 100 hf) hm
    rw [Nat.mod_eq_of_lt h1]
    have hp : filled * 100 / making ≤ 100 := by
      have hd := Nat.div_le_div_right (c := making) (Nat.mul_le_mul_right 100 hf)
      have hcancel : making * 100 / making = 100 := Nat.mul_div_cancel_left 100 hpos
      rwa [hcancel] at hd
    have h2 : filled * 100 / making * L < U64 := by
      have ha := Nat.mul_le_mul_right L hp
      unfold U64 U32 at *
      omega
    rw [Nat.mod_eq_of_lt h2]
    have h3 : filled * 100 / making * L / 100 < U32 := by
      have hc := Nat.div_le_div_right (c := 100) (Nat.mul_le_mul_right L hp)
      unfold U32 at *
      omega
    rw [Nat.mod_eq_of_lt h3]

/-- Under the same no-wrap conditions, the derived secret index is monotone
in the cumulative filled amount. -/
theorem deriveIdx_mono (making L s t : Nat) (hst : s ≤ t) (ht : t ≤ making)
    (hm : making * 100 < U64) (hL : L < U32) :
    s * 100 % U64 / making * L % U64 / 100 % U32 ≤
      t * 100 % U64 / making * L % U64 / 100 % U32 := by
  rw [deriveIdx_nowrap making L s (hst.trans ht) hm hL,
      deriveIdx_nowrap making L t ht hm hL]
  exact Nat.div_le_div_right
    (Nat.mul_le_mul_right _ (Nat.div_le_div_right (Nat.mul_le_mul_right _ hst)))

/-- Appending one more fill amount appends the index derived from the whole
previous cumulative amount. -/
theorem expectedIndices_append (making L : Nat) (amts : List Nat) :
    ∀ (start a : Nat),
      expectedIndices making L start (amts ++ [a]) =
        expectedIndices making L start amts ++
          [(start + amts.sum) * 100 % U64 / making * L % U64 / 100 % U32] := by
  induction amts with
  | nil => intro start a; simp [expectedIndices]
  | cons b rest ih =>
    intro start a
    simp only [List.cons_append, expectedIndices, List.sum_cons, List.append_eq]
    rw [ih (start + b) a, Nat.add_assoc]

/-- As long as the cumulative amounts stay within the order's making amount
and the no-wrap conditions hold, the derived index sequence is
non-decreasing. -/
theorem expectedIndices_chain (making L : Nat) (hm : making * 100 < U64)
    (hL : L < U32) :
    ∀ (amts : List Nat) (start : Nat), start + amts.sum ≤ making →
      List.Chain' (· ≤ ·) (expectedIndices making L start amts)
  | [], _, _ => List.chain'_nil
  | [_], _, _ => by simp [expectedIndices]
  | a :: b :: rest, start, hbound => by
    simp only [List.sum_cons] at hbound
    rw [expectedIndices, expectedIndices]
    rw [List.chain'_cons]
    refine ⟨deriveIdx_mono making L start (start + a) (by omega) (by omega) hm hL, ?_⟩
    rw [← expectedIndices]
    exact expectedIndices_chain making L hm hL (b :: rest) (start + a)
      (by simp only [List.sum_cons]; omega)

/-- Shape of a successful `partially_fill_order` call: it leaves the making
amount and secret-hash list unchanged and appends exactly one fill record
whose secret index is derived from the cumulative filled amount before the
fill. -/
theorem partially_fill_order_ok_shape (o : FusionOrder) (addr : String)
    (amt now : Nat) (fid : String) (o2 : FusionOrder) (pd : PartialFillData)
    (hpd : o.partial_fill_data = some pd)
    (h : partially_fill_order o addr amt now = .ok (fid, o2)) :
    o2.making_amount = o.making_amount ∧
    o2.secret_hashes = o.secret_hashes ∧
    amt ≤ pd.remaining_amount ∧
    ∃ pd2, o2.partial_fill_data = some pd2 ∧
      pd2.filled_amount = pd.filled_amount + amt ∧
      pd2.remaining_amount = pd.remaining_amount - amt ∧
      pd2.fills = pd.fills ++
        [{ resolver_address := addr, fill_amount := amt,
           secret_index := pd.filled_amount * 100 % U64 / o.making_amount *
             o.secret_hashes.length % U64 / 100 % U32,
           timestamp := now }] := by
  unfold partially_fill_order at h
  split_ifs at h with hs hv
  rw [hpd] at h
  dsimp only at h
  unfold FusionOrder.add_partial_fill at h
  rw [hpd] at h
  dsimp only at h
  cases haf : pd.add_fill
      { resolver_address := addr
        fill_amount := amt
        secret_index := pd.filled_amount * 100 % U64 / o.making_amount *
          o.secret_hashes.length % U64 / 100 % U32
        timestamp := now } with
  | error e => rw [haf] at h; simp at h
  | ok pd2 =>
    rw [haf] at h
    dsimp only at h
    obtain ⟨hle, hfa, hra, hfs⟩ := add_fill_ok pd _ pd2 haf
    split_ifs at h with hfull <;>
      · simp only [Except.ok.injEq, Prod.mk.injEq] at h
        have ho2 := h.2
        subst ho2
        exact ⟨rfl, rfl, hle, pd2, rfl, hfa, hra, hfs⟩

end Orderbook

namespace Orderbook

/-- Invariant carried through any sequence of `partially_fill_order` calls:
the conservation sum holds and the recorded secret indices are exactly those
derived from the cumulative filled amounts. -/
theorem applyCalls_inv (making L : Nat) (calls : List (String × Nat × Nat)) :
    ∀ (o : FusionOrder) (pd : PartialFillData),
      o.making_amount = making →
      o.secret_hashes.length = L →
      o.partial_fill_data = some pd →
      pd.filled_amount + pd.remaining_amount = making →
      pd.filled_amount = (pd.fills.map PartialFill.fill_amount).sum →
      pd.fills.map PartialFill.secret_index =
        expectedIndices making L 0 (pd.fills.map PartialFill.fill_amount) →
      ∃ pd2, (applyPartialFillCalls o calls).partial_fill_data = some pd2 ∧
        pd2.filled_amount + pd2.remaining_amount = making ∧
        pd2.filled_amount = (pd2.fills.map PartialFill.fill_amount).sum ∧
        pd2.fills.map PartialFill.secret_index =
          expectedIndices making L 0 (pd2.fills.map PartialFill.fill_amount) := by
  induction calls with
  | nil =>
    intro o pd _ _ hpd hcons hsum hder
    exact ⟨pd, hpd, hcons, hsum, hder⟩
  | cons call rest ih =>
    intro o pd hm hL hpd hcons hsum hder
    obtain ⟨addr, amt, t⟩ := call
    simp only [applyPartialFillCalls]
    cases hres : partially_fill_order o addr amt t with
    | error e => exact ih o pd hm hL hpd hcons hsum hder
    | ok res =>
      obtain ⟨fid, o2⟩ := res
      obtain ⟨hm2, hsh2, hle, pd2, hpd2, hfa2, hra2, hfs2⟩ :=
        partially_fill_order_ok_shape o addr amt t fid o2 pd hpd hres
      dsimp only
      apply ih o2 pd2 (by rw [hm2, hm]) (by rw [hsh2, hL]) hpd2 (by omega)
      · rw [hfa2, hfs2]
        simp [hsum]
      · rw [hfs2, List.map_append, List.map_append]
        simp only [List.map_cons, List.map_nil]
        rw [expectedIndices_append, hder, hm, hL, hsum]
        simp
end Orderbook

namespace Orderbook

/-- C9 (amended): for an order with partial fills enabled (data initialized
with `filled = 0`, `remaining = making_amount`), after every sequence of
`partially_fill_order` calls the recorded secret indices are exactly those
the source's machine arithmetic derives from the cumulative filled amount
before each fill; and provided `making_amount * 100` fits in a `u64` and the
number of secret hashes fits in a `u32` — so that none of that arithmetic
wraps — each index equals
`floor((filled * 100 / making_amount) * number_of_secret_hashes / 100)` and
the sequence of recorded indices is non-decreasing: secrets are required in
order as the order fills.  (Without the range conditions the wrapped products
can record decreasing indices; see the counterexample.) -/
theorem C9_secret_indices_monotone (o0 : FusionOrder) (making L parts : Nat)
    (root : String) (calls : List (String × Nat × Nat))
    (hm : o0.making_amount = making)
    (hL : o0.secret_hashes.length = L)
    (hpd : o0.partial_fill_data = some (PartialFillData.new parts making root))
    (hbound : making * 100 < U64)
    (hcount : L < U32) :
    ((recordedFills (applyPartialFillCalls o0 calls)).map PartialFill.secret_index =
      expectedIndices making L 0
        ((recordedFills (applyPartialFillCalls o0 calls)).map PartialFill.fill_amount)) ∧
    (∀ filled, filled ≤ making →
      filled * 100 % U64 / making * L % U64 / 100 % U32 =
        filled * 100 / making * L / 100) ∧
    List.Chain' (· ≤ ·)
      ((recordedFills (applyPartialFillCalls o0 calls)).map PartialFill.secret_index) := by
  obtain ⟨pd2, hpd2, hcons2, hsum2, hder2⟩ :=
    applyCalls_inv making L calls o0 (PartialFillData.new parts making root) hm hL hpd
      (by simp [PartialFillData.new]) (by simp [PartialFillData.new])
      (by simp [PartialFillData.new, expectedIndices])
  refine ⟨?_, fun filled hf => deriveIdx_nowrap making L filled hf hbound hcount, ?_⟩
  · unfold recordedFills
    rw [hpd2]
    dsimp only
    exact hder2
  · unfold recordedFills
    rw [hpd2]
    dsimp only
    rw [hder2]
    exact expectedIndices_chain making L hbound hcount _ 0 (by omega)

/-- Order with partial fills enabled over 4 secret hashes (100 making). -/
def c9Order : FusionOrder :=
  { id := "o9", making_amount := 100, taking_amount := 200
    secret_hashes := ["s0", "s1", "s2", "s3"], status := .Pending
    fusion_state := .AnnouncementPhase, expires_at := 10000, completed_at := none
    auction_start_timestamp := 0, auction_start_rate := 240
    minimum_return_amount := 190, price_curve := PriceCurve.default_curve 200 3600
    partial_fill_data := some (PartialFillData.new 4 100 "root") }

/-- Three successive partial fills of 30, 50 and 20 tokens. -/
def c9Calls : List (String × Nat × Nat) := [("r", 30, 1), ("r", 50, 2), ("r", 20, 3)]

/-- The order after the three fills. -/
def c9Result : FusionOrder := applyPartialFillCalls c9Order c9Calls

/-- Witness for C9: the order of 100 tokens with 4 secret hashes satisfies
the range conditions, and the three fills of 30, 50 and 20 tokens record the
non-decreasing secret indices 0, 1, 3. -/
theorem C9_secret_indices_monotone_witness :
    (recordedFills c9Result).map PartialFill.secret_index = [0, 1, 3] ∧
    List.Chain' (· ≤ ·) ((recordedFills c9Result).map PartialFill.secret_index) := by
  have h := C9_secret_indices_monotone c9Order 100 4 4 "root" c9Calls rfl rfl rfl
    (by decide) (by decide)
  exact ⟨h.1.trans (by decide), h.2.2⟩

end Orderbook

namespace Orderbook

/-- Order of 10^18 tokens (an 18-decimal token amount, a valid unvalidated
`u64`) with 100 secret hashes and partial fills enabled. -/
def c9OverflowOrder : FusionOrder :=
  { id := "obig", making_amount := 1000000000000000000, taking_amount := 1
    secret_hashes := List.replicate 100 "h", status := .Pending
    fusion_state := .AnnouncementPhase, expires_at := 10000, completed_at := none
    auction_start_timestamp := 0, auction_start_rate := 0
    minimum_return_amount := 0, price_curve := PriceCurve.default_curve 1 3600
    partial_fill_data := some (PartialFillData.new 100 1000000000000000000 "root") }

/-- Three valid fills of 1.8×10^17, 4×10^16 and 10^16 tokens. -/
def c9OverflowCalls : List (String × Nat × Nat) :=
  [("r", 180000000000000000, 1), ("r", 40000000000000000, 2), ("r", 10000000000000000, 3)]

/-- The order after the three fills. -/
def c9OverflowResult : FusionOrder := applyPartialFillCalls c9OverflowOrder c9OverflowCalls

/-- Counterexample to C9 as stated: with `making_amount = 10^18` the `u64`
product `filled_amount * 100` wraps once the cumulative fill passes
1.8446×10^17, so the three successful fills above record the secret indices
0, 18, 3 — a *decreasing* sequence.  The claim's unconditional monotonicity
therefore fails on the program's machine arithmetic; it holds only under the
range conditions of the amended theorem. -/
theorem C9_secret_indices_monotone_counterexample :
    (recordedFills c9OverflowResult).map PartialFill.secret_index = [0, 18, 3] ∧
    ¬ List.Chain' (· ≤ ·)
      ((recordedFills c9OverflowResult).map PartialFill.secret_index) := by
  have heq : (recordedFills c9OverflowResult).map PartialFill.secret_index =
      [0, 18, 3] := by decide
  refine ⟨heq, ?_⟩
  rw [heq]
  intro hch
  rw [List.chain'_cons, List.chain'_cons] at hch
  exact absurd hch.2.1 (by omega)

end Orderbook
